import Mathlib

/-!
# Weather-Forecast: a shallow embedding of `main.js` and `script.js`

The two browser scripts are embedded as pure functions over explicit page
states.  Strings are Lean strings (sequences of Unicode scalar values), an
instant is an integer number of milliseconds since the epoch, the local time
zone is a fixed offset in minutes, and the platform (network, share sheet,
clipboard, random source) is passed in explicitly.
-/

namespace WeatherForecast

/-! ## ECMAScript strings and regular expressions -/

/-- White space of ECMAScript: the class `\s` of a regular expression, which is
also the set of characters `String.prototype.trim` strips (WhiteSpace and
LineTerminator). -/
def isJsWhitespace (c : Char) : Bool :=
  let n := c.toNat
  n == 0x09 || n == 0x0A || n == 0x0B || n == 0x0C || n == 0x0D || n == 0x20 ||
  n == 0xA0 || n == 0x1680 || (0x2000 ≤ n && n ≤ 0x200A) || n == 0x2028 ||
  n == 0x2029 || n == 0x202F || n == 0x205F || n == 0x3000 || n == 0xFEFF

/-- The characters of `s` without leading and trailing white space. -/
def trimChars (cs : List Char) : List Char :=
  ((cs.dropWhile isJsWhitespace).reverse.dropWhile isJsWhitespace).reverse

/-- The method `String.prototype.trim`. -/
def jsTrim (s : String) : String :=
  String.mk (trimChars s.data)

/-- The character class `[a-zA-Z\s,.-]` of `cityPattern` (the final `-` is a
literal hyphen). -/
def cityClass (c : Char) : Bool :=
  let n := c.toNat
  (0x61 ≤ n && n ≤ 0x7A) || (0x41 ≤ n && n ≤ 0x5A) || isJsWhitespace c ||
  c == ',' || c == '.' || c == '-'

/-- Anchored match of `^[class]+$` (no `m` flag, so `$` is the end of input):
one character of the class, then either the end of the input or one more
round. -/
def matchClassPlus (cls : Char → Bool) : List Char → Bool
  | [] => false
  | [c] => cls c
  | c :: rest => cls c && matchClassPlus cls rest

/-- The call `cityPattern.test(cityName)` with
`cityPattern = /^[a-zA-Z\s,.-]+$/`. -/
def cityPatternTest (cityName : String) : Bool :=
  matchClassPlus cityClass cityName.data

/-- The function `validateCityInput` of `main.js`. -/
def validateCityInput (cityName : String) : Bool :=
  if !cityPatternTest cityName then false else true

/-! ## Percent encoding -/

/-- The characters `encodeURIComponent` leaves as they are:
`A-Z a-z 0-9 - _ . ! ~ * ' ( )`. -/
def isUriUnreserved (c : Char) : Bool :=
  let n := c.toNat
  (0x61 ≤ n && n ≤ 0x7A) || (0x41 ≤ n && n ≤ 0x5A) || (0x30 ≤ n && n ≤ 0x39) ||
  n == 0x2D || n == 0x5F || n == 0x2E || n == 0x21 || n == 0x7E || n == 0x2A ||
  n == 0x27 || n == 0x28 || n == 0x29

/-- The UTF-8 octets of a code point. -/
def utf8Octets (n : Nat) : List Nat :=
  if n < 0x80 then [n]
  else if n < 0x800 then [0xC0 + n / 64, 0x80 + n % 64]
  else if n < 0x10000 then [0xE0 + n / 4096, 0x80 + (n / 64) % 64, 0x80 + n % 64]
  else [0xF0 + n / 262144, 0x80 + (n / 4096) % 64, 0x80 + (n / 64) % 64, 0x80 + n % 64]

/-- An upper-case hexadecimal digit. -/
def hexDigit (n : Nat) : Char :=
  if n < 10 then Char.ofNat (0x30 + n) else Char.ofNat (0x41 + (n - 10))

/-- One octet as `%XX`. -/
def percentOctet (b : Nat) : List Char :=
  ['%', hexDigit (b / 16), hexDigit (b % 16)]

/-- The function `encodeURIComponent` on a string of scalar values (a lone
surrogate, on which the builtin throws, is not a Lean character). -/
def encodeURIComponent (s : String) : String :=
  String.mk (s.data.flatMap fun c =>
    if isUriUnreserved c then [c] else (utf8Octets c.toNat).flatMap percentOctet)

/-! ## Dates

An instant is a number of milliseconds since 1970-01-01T00:00:00Z.  The day
arithmetic is the proleptic Gregorian calendar of ECMAScript. -/

/-- Milliseconds in a day. -/
def msPerDay : Int := 86400000

/-- Day number (days since 1970-01-01) of the civil date `y-m-d`, `m` in
`1..12`; like `MakeDay`, a day beyond the end of the month runs on into the
following months. -/
def daysFromCivil (y m d : Int) : Int :=
  let y1 := if m ≤ 2 then y - 1 else y
  let era := y1 / 400
  let yoe := y1 - era * 400
  let mp := if m > 2 then m - 3 else m + 9
  let doy := (153 * mp + 2) / 5 + d - 1
  let doe := yoe * 365 + yoe / 4 - yoe / 100 + doy
  era * 146097 + doe - 719468

/-- Civil date `(year, month, day)` of a day number. -/
def civilFromDays (z : Int) : Int × Int × Int :=
  let z1 := z + 719468
  let era := z1 / 146097
  let doe := z1 - era * 146097
  let yoe := (doe - doe / 1460 + doe / 36524 - doe / 146096) / 365
  let doy := doe - (365 * yoe + yoe / 4 - yoe / 100)
  let mp := (5 * doy + 2) / 153
  let d := doy - (153 * mp + 2) / 5 + 1
  let m := if mp < 10 then mp + 3 else mp - 9
  let y := yoe + era * 400
  (if m ≤ 2 then y + 1 else y, m, d)

/-- Whether `y` is a leap year. -/
def isLeapYear (y : Nat) : Bool :=
  (y % 4 == 0 && y % 100 != 0) || y % 400 == 0

/-- Number of days of month `m` of year `y`, `0` for a month not in `1..12`. -/
def daysInMonth (y m : Nat) : Nat :=
  match m with
  | 1 => 31 | 2 => if isLeapYear y then 29 else 28 | 3 => 31 | 4 => 30
  | 5 => 31 | 6 => 30 | 7 => 31 | 8 => 31 | 9 => 30 | 10 => 31 | 11 => 30
  | 12 => 31 | _ => 0

/-- Value of a decimal digit, if the character is one. -/
def digitValue (c : Char) : Option Nat :=
  if 0x30 ≤ c.toNat && c.toNat ≤ 0x39 then some (c.toNat - 0x30) else none

/-- The number written by a list of decimal digits. -/
def digitsValue : List Char → Option Nat
  | [] => some 0
  | cs => cs.foldl (fun acc c => do
      let a ← acc
      let v ← digitValue c
      pure (10 * a + v)) (some 0)

/-- The date-only form `YYYY-MM-DD` of the ECMAScript date-time string
format, with a month in `01..12` and a day that the month has. -/
def parseIsoDate (s : String) : Option (Nat × Nat × Nat) :=
  match s.data with
  | [y1, y2, y3, y4, '-', m1, m2, '-', d1, d2] => do
      let y ← digitsValue [y1, y2, y3, y4]
      let m ← digitsValue [m1, m2]
      let d ← digitsValue [d1, d2]
      if 1 ≤ m && m ≤ 12 && 1 ≤ d && d ≤ daysInMonth y m then some (y, m, d) else none
  | _ => none

/-- The clock and the time zone a script runs in.  `now` is the instant
`new Date()` returns, `tzOffsetMinutes` is local time minus UTC, and
`otherDateForms` is what the `Date` constructor makes of a string that is not
in the date-only form (`none` is an invalid date); it is left to the engine. -/
structure Env where
  now : Int
  tzOffsetMinutes : Int
  otherDateForms : String → Option Int

/-- The time value of `new Date(s)`: a date-only string is midnight UTC of
that date; `none` is the invalid date, whose time value is `NaN`. -/
def dateFromString (env : Env) (s : String) : Option Int :=
  match parseIsoDate s with
  | some (y, m, d) => some (daysFromCivil y m d * msPerDay)
  | none => env.otherDateForms s

/-- Local time of an instant. -/
def localTime (env : Env) (t : Int) : Int :=
  t + env.tzOffsetMinutes * 60000

/-- The instant of a local time. -/
def utcOfLocal (env : Env) (t : Int) : Int :=
  t - env.tzOffsetMinutes * 60000

/-- The call `t.setHours(0, 0, 0, 0)`: the instant of local midnight of the
local day of `t`. -/
def setHoursZero (env : Env) (t : Int) : Int :=
  utcOfLocal env ((localTime env t / msPerDay) * msPerDay)

/-- The call `t.setDate(dayOfMonth)`: same local year, month and time of day,
the day of the month replaced. -/
def setDate (env : Env) (t : Int) (dayOfMonth : Int) : Int :=
  let lt := localTime env t
  let ymd := civilFromDays (lt / msPerDay)
  utcOfLocal env (daysFromCivil ymd.1 ymd.2.1 dayOfMonth * msPerDay + lt % msPerDay)

/-- The call `t.getDate()`: the local day of the month. -/
def getDate (env : Env) (t : Int) : Int :=
  (civilFromDays (localTime env t / msPerDay)).2.2

/-- The call `t.getFullYear()`: the local year. -/
def getFullYear (env : Env) (t : Int) : Int :=
  (civilFromDays (localTime env t / msPerDay)).1

/-- The call `t.setFullYear(year)`: same local month, day and time of day,
the year replaced; the 29th of February of a year without one is the 1st of
March. -/
def setFullYear (env : Env) (t : Int) (year : Int) : Int :=
  let lt := localTime env t
  let ymd := civilFromDays (lt / msPerDay)
  utcOfLocal env (daysFromCivil year ymd.2.1 ymd.2.2 * msPerDay + lt % msPerDay)

/-- Decimal digits of a natural number, padded with zeros to a width. -/
def padDigits (width n : Nat) : String :=
  let ds := Nat.toDigits 10 n
  String.mk (List.replicate (width - ds.length) '0' ++ ds)

/-- The part of `toISOString()` before the `T`: the UTC date as `YYYY-MM-DD`,
a year outside `0..9999` written with a sign and six digits. -/
def isoDateString (t : Int) : String :=
  let ymd := civilFromDays (t / msPerDay)
  let year :=
    if 0 ≤ ymd.1 ∧ ymd.1 ≤ 9999 then padDigits 4 ymd.1.toNat
    else if ymd.1 < 0 then "-" ++ padDigits 6 ymd.1.natAbs
    else "+" ++ padDigits 6 ymd.1.toNat
  year ++ "-" ++ padDigits 2 ymd.2.1.toNat ++ "-" ++ padDigits 2 ymd.2.2.toNat

/-- The expression `toTimeString().split(' ')[0].slice(0, 5)`: the local time
of day as `HH:MM`. -/
def localHourMinute (env : Env) (t : Int) : String :=
  let ms := (localTime env t % msPerDay).toNat
  padDigits 2 (ms / 3600000) ++ ":" ++ padDigits 2 (ms / 60000 % 60)

/-- English name of the weekday of a day number (day 0 is a Thursday). -/
def weekdayName (day : Int) : String :=
  match ((day + 4) % 7).toNat with
  | 0 => "Sunday" | 1 => "Monday" | 2 => "Tuesday" | 3 => "Wednesday"
  | 4 => "Thursday" | 5 => "Friday" | _ => "Saturday"

/-- English name of a month. -/
def monthName (m : Int) : String :=
  match m.toNat with
  | 1 => "January" | 2 => "February" | 3 => "March" | 4 => "April"
  | 5 => "May" | 6 => "June" | 7 => "July" | 8 => "August"
  | 9 => "September" | 10 => "October" | 11 => "November" | _ => "December"

/-- The call `toLocaleDateString('en-US', { weekday: 'long' })`. -/
def localWeekdayLong (env : Env) (t : Int) : String :=
  weekdayName (localTime env t / msPerDay)

/-- The call `toLocaleDateString('en-US', { weekday: 'long', year: 'numeric',
month: 'long', day: 'numeric' })` for a year of the common era, as in
`Sunday, January 1, 2023`; the invalid date gives `Invalid Date`. -/
def localLongDate (env : Env) (t : Option Int) : String :=
  match t with
  | none => "Invalid Date"
  | some t =>
    let day := localTime env t / msPerDay
    let ymd := civilFromDays day
    weekdayName day ++ ", " ++ monthName ymd.2.1 ++ " " ++ toString ymd.2.2 ++ ", " ++
      toString ymd.1

/-! ## ECMAScript values -/

/-- A value as the scripts observe it: through `ToString` (a template
literal), through its truthiness (an `if`) and through `JSON.stringify`.
`num` is an integer-valued number in the range printed in plain decimal;
`other` stands for every remaining value that is truthy (an array, an object,
a number with a fraction), given by its two renderings. -/
inductive JsValue where
  | undefined
  | null
  | bool (b : Bool)
  | num (n : Int)
  | str (s : String)
  | other (text json : String)
  deriving DecidableEq

/-- One character inside a JSON string literal, as `JSON.stringify` writes
it. -/
def jsonEscapeChar (c : Char) : List Char :=
  if c = '"' then ['\\', '"']
  else if c = '\\' then ['\\', '\\']
  else if c.toNat = 8 then ['\\', 'b']
  else if c.toNat = 9 then ['\\', 't']
  else if c.toNat = 10 then ['\\', 'n']
  else if c.toNat = 12 then ['\\', 'f']
  else if c.toNat = 13 then ['\\', 'r']
  else if c.toNat < 32 then
    ['\\', 'u', '0', '0', if c.toNat < 16 then '0' else '1',
      (hexDigit (c.toNat % 16)).toLower]
  else [c]

/-- A string as a JSON string literal. -/
def jsonQuote (s : String) : String :=
  String.mk ('"' :: s.data.flatMap jsonEscapeChar ++ ['"'])

namespace JsValue

/-- The abstract operation `ToString`, as applied by a template literal. -/
def toStr : JsValue → String
  | undefined => "undefined"
  | null => "null"
  | bool b => if b then "true" else "false"
  | num n => toString n
  | str s => s
  | other text _ => text

/-- The abstract operation `ToBoolean`, as applied by `if`. -/
def truthy : JsValue → Bool
  | undefined => false
  | null => false
  | bool b => b
  | num n => n != 0
  | str s => s != ""
  | other _ _ => true

/-- The text `JSON.stringify` writes for a property value; `none` for
`undefined`, whose property is left out. -/
def json : JsValue → Option String
  | undefined => none
  | null => some "null"
  | bool b => some (if b then "true" else "false")
  | num n => some (toString n)
  | str s => some (jsonQuote s)
  | other _ j => some j

end JsValue

/-- An object: its own properties in enumeration order, the keys distinct. -/
abbrev JsObject := List (String × JsValue)

/-- Property access `data.key`: `undefined` when there is no such property. -/
def JsObject.get (data : JsObject) (key : String) : JsValue :=
  match data.find? (fun p => p.1 = key) with
  | some p => p.2
  | none => JsValue.undefined

/-- The call `JSON.stringify(data)` for an object. -/
def jsonStringify (data : JsObject) : String :=
  "\x7b" ++ ",".intercalate (data.filterMap fun p =>
    (p.2.json).map fun j => jsonQuote p.1 ++ ":" ++ j) ++ "\x7d"

/-- The call `s.replace(/"/g, '&quot;')`. -/
def replaceQuotes (s : String) : String :=
  String.mk (s.data.flatMap fun c => if c = '"' then "&quot;".data else [c])

/-- How a statement sequence ends: normally, or by a thrown exception (for an
`async` function, by a rejected promise); either way with the state reached. -/
inductive Completion (σ : Type) where
  | normal (state : σ)
  | throws (state : σ) (error : String)

/-- The state a completion carries. -/
def Completion.state {σ : Type} : Completion σ → σ
  | .normal s => s
  | .throws s _ => s

/-- Whether a completion is a thrown exception. -/
def Completion.isThrow {σ : Type} : Completion σ → Bool
  | .normal _ => false
  | .throws _ _ => true

/-- The exception of reading a property of `null`. -/
def typeError : String := "TypeError"

/-- How a promise of the platform settles. -/
inductive Settled where
  | resolved
  | rejected (reason : String)

/-! ## `main.js`: the historical weather requester -/

/-- An element created by `showAlert`. -/
structure Alert where
  message : String
  type : String
  deriving DecidableEq

/-- The `className` of an alert element. -/
def Alert.className (a : Alert) : String :=
  "alert alert-" ++ a.type ++ " alert-dismissible fade show custom-alert"

/-- The markup assigned to `innerHTML` of an alert element. -/
def Alert.innerHTML (a : Alert) : String :=
  String.join [
    "\n",
    "        ", a.message, "\n",
    "        <button type=\"button\" class=\"btn-close\" data-bs-dismiss=\"alert\"></button>\n",
    "    "]

/-- The element `#historical-result`. -/
structure Panel where
  innerHTML : String
  display : String
  deriving DecidableEq

/-- A call of `fetch`. -/
structure Request where
  url : String
  method : String
  contentType : String
  body : String
  deriving DecidableEq

/-- A file offered for download through a temporary link. -/
structure Download where
  filename : String
  content : String
  mimeType : String
  deriving DecidableEq

/-- The argument of `navigator.share`. -/
structure ShareData where
  title : String
  text : String
  url : String
  deriving DecidableEq

/-- The page `main.js` runs on and the record of what the script did to the
platform.  An element that the page lacks is `none`. -/
structure World where
  /-- Value of the input `#historical-city`. -/
  historicalCity : Option String
  /-- Value of the input `#historical-date`. -/
  historicalDate : Option String
  /-- The attribute `min` of the input `#historical-date`. -/
  historicalDateMin : String := ""
  /-- The attribute `max` of the input `#historical-date`. -/
  historicalDateMax : String := ""
  /-- The element `#historical-result`. -/
  historicalResult : Option Panel
  /-- The `.alert.custom-alert` elements now in the body. -/
  customAlerts : List Alert
  /-- Every alert `showAlert` has shown, oldest first. -/
  shown : List Alert
  /-- Pending timeouts: delay in milliseconds and the alert to remove. -/
  timers : List (Nat × Alert)
  /-- Every `fetch` call, oldest first. -/
  requests : List Request
  /-- Every download started, oldest first. -/
  downloads : List Download
  /-- Every `navigator.share` call, oldest first. -/
  shares : List ShareData
  /-- Every text passed to `navigator.clipboard.writeText`, oldest first. -/
  clipboardWrites : List String
  /-- Every `console.error` argument, oldest first. -/
  consoleErrors : List String
  /-- The address `window.location.href`. -/
  href : String

/-- The function `showAlert`: the custom alerts present are removed, the new
one is appended to the body and a timeout of 5 seconds is set to remove it. -/
def showAlert (message : String) (type : String) (w : World) : World :=
  let alertDiv : Alert := { message := message, type := type }
  { w with
    customAlerts := [alertDiv]
    shown := w.shown ++ [alertDiv]
    timers := w.timers ++ [(5000, alertDiv)] }

/-- The function `setDateRestrictions`: when the date input exists, its `max`
becomes the UTC date of the instant one day back and its `min` the UTC date of
the instant five years back. -/
def setDateRestrictions (env : Env) (w : World) : World :=
  match w.historicalDate with
  | none => w
  | some _ =>
    let yesterday := setDate env env.now (getDate env env.now - 1)
    let maxDate := isoDateString yesterday
    let minDate := setFullYear env env.now (getFullYear env env.now - 5)
    { w with historicalDateMax := maxDate, historicalDateMin := isoDateString minDate }

/-- What the awaited `fetch(...)` and `response.json()` come to: the parsed
object, or a failure (the request or the parsing rejects) with its
`error.message`. -/
inductive FetchOutcome where
  | json (data : JsObject)
  | failed (message : String)

/-- The loading placeholder of `getHistoricalData`. -/
def loadingMarkup : String :=
  String.join [
    "\n",
    "        <div class=\"text-center py-4\">\n",
    "            <div class=\"spinner-border text-primary\" role=\"status\">\n",
    "                <span class=\"visually-hidden\">Loading...</span>\n",
    "            </div>\n",
    "            <p class=\"mt-2 text-muted\">Fetching historical weather data...</p>\n",
    "        </div>\n",
    "    "]

/-- The danger banner for a payload with an error field. -/
def errorBanner (error : String) : String :=
  String.join [
    "\n",
    "                <div class=\"alert alert-danger\">\n",
    "                    <i class=\"fas fa-exclamation-triangle\"></i> ", error, "\n",
    "                </div>\n",
    "            "]

/-- The danger banner of the `catch` block. -/
def failureBanner (message : String) : String :=
  String.join [
    "\n",
    "            <div class=\"alert alert-danger\">\n",
    "                <i class=\"fas fa-exclamation-triangle\"></i> Error: ", message, "\n",
    "            </div>\n",
    "        "]

/-- The markup of the data card of `displayHistoricalData`. -/
def historicalCard (data : JsObject) (city date formattedDate : String) : String :=
  String.join [
    "\n",
    "        <div class=\"historical-data fade-in-up\">\n",
    "            <div class=\"d-flex justify-content-between align-items-center mb-3\">\n",
    "                <h6 class=\"mb-0\">\n",
    "                    <i class=\"fas fa-history\"></i> Historical Weather for ",
    city,
    "\n",
    "                </h6>\n",
    "                <small class=\"text-muted\">",
    formattedDate,
    "</small>\n",
    "            </div>\n",
    "            \n",
    "            <div class=\"row g-3\">\n",
    "                <div class=\"col-md-3\">\n",
    "                    <div class=\"historical-detail-card\">\n",
    "                        <div class=\"detail-icon\">\n",
    "                            <i class=\"fas fa-thermometer-half text-danger\"></i>\n",
    "                        </div>\n",
    "                        <div class=\"detail-info\">\n",
    "                            <strong>Temperature</strong>\n",
    "                            <span class=\"detail-value\">",
    (data.get "temperature").toStr,
    "°C</span>\n",
    "                        </div>\n",
    "                    </div>\n",
    "                </div>\n",
    "                \n",
    "                <div class=\"col-md-3\">\n",
    "                    <div class=\"historical-detail-card\">\n",
    "                        <div class=\"detail-icon\">\n",
    "                            <i class=\"fas fa-tint text-primary\"></i>\n",
    "                        </div>\n",
    "                        <div class=\"detail-info\">\n",
    "                            <strong>Humidity</strong>\n",
    "                            <span class=\"detail-value\">",
    (data.get "humidity").toStr,
    "%</span>\n",
    "                        </div>\n",
    "                    </div>\n",
    "                </div>\n",
    "                \n",
    "                <div class=\"col-md-3\">\n",
    "                    <div class=\"historical-detail-card\">\n",
    "                        <div class=\"detail-icon\">\n",
    "                            <i class=\"fas fa-gauge text-success\"></i>\n",
    "                        </div>\n",
    "                        <div class=\"detail-info\">\n",
    "                            <strong>Pressure</strong>\n",
    "                            <span class=\"detail-value\">",
    (data.get "pressure").toStr,
    " hPa</span>\n",
    "                        </div>\n",
    "                    </div>\n",
    "                </div>\n",
    "                \n",
    "                <div class=\"col-md-3\">\n",
    "                    <div class=\"historical-detail-card\">\n",
    "                        <div class=\"detail-icon\">\n",
    "                            <i class=\"fas fa-wind text-info\"></i>\n",
    "                        </div>\n",
    "                        <div class=\"detail-info\">\n",
    "                            <strong>Wind Speed</strong>\n",
    "                            <span class=\"detail-value\">",
    (data.get "wind_speed").toStr,
    " m/s</span>\n",
    "                        </div>\n",
    "                    </div>\n",
    "                </div>\n",
    "            </div>\n",
    "            \n",
    "            <div class=\"mt-3 p-3 bg-light rounded\">\n",
    "                <strong><i class=\"fas fa-cloud\"></i> Weather Description:</strong> \n",
    "                <span class=\"text-capitalize\">",
    (data.get "description").toStr,
    "</span>\n",
    "            </div>\n",
    "            \n",
    "            <div class=\"mt-3 text-center\">\n",
    "                <button class=\"btn btn-outline-primary btn-sm\" onclick=\"downloadHistoricalData('",
    city,
    "', '",
    date,
    "', ",
    replaceQuotes (jsonStringify data),
    ")\">\n",
    "                    <i class=\"fas fa-download\"></i> Download Data\n",
    "                </button>\n",
    "                <button class=\"btn btn-outline-secondary btn-sm ms-2\" onclick=\"shareHistoricalData('",
    city,
    "', '",
    date,
    "')\">\n",
    "                    <i class=\"fas fa-share\"></i> Share\n",
    "                </button>\n",
    "            </div>\n",
    "        </div>\n",
    "    "]

/-- The function `displayHistoricalData`: the card replaces the content of
`#historical-result`. -/
def displayHistoricalData (env : Env) (data : JsObject) (city date : String)
    (w : World) : Completion World :=
  match w.historicalResult with
  | none => .throws w typeError
  | some resultDiv =>
    let formattedDate := localLongDate env (dateFromString env date)
    .normal { w with
      historicalResult :=
        some { resultDiv with innerHTML := historicalCard data city date formattedDate } }

/-- The comparison `selectedDate >= today` of time values; with the invalid
date (`NaN`) it is false. -/
def dateGe (selectedDate : Option Int) (today : Int) : Bool :=
  match selectedDate with
  | none => false
  | some t => decide (t ≥ today)

/-- The request `getHistoricalData` sends. -/
def historicalRequest (city date : String) : Request :=
  { url := "/historical"
    method := "POST"
    contentType := "application/x-www-form-urlencoded"
    body := "city=" ++ encodeURIComponent city ++ "&date=" ++ encodeURIComponent date }

/-- The function `getHistoricalData`, run until its promise settles; `fetch`
is what the network answers to the request.  Whatever throws inside `try`
ends in the `catch` block, which writes the failure banner. -/
def getHistoricalData (env : Env) (fetch : Request → FetchOutcome) (w : World) :
    Completion World :=
  match w.historicalCity with
  | none => .throws w typeError
  | some cityValue =>
  match w.historicalDate with
  | none => .throws w typeError
  | some date =>
    let city := jsTrim cityValue
    if city = "" ∨ date = "" then
      .normal (showAlert "Please enter both city name and date" "warning" w)
    else if !validateCityInput city then
      .normal (showAlert "Please enter a valid city name" "warning" w)
    else
      let selectedDate := dateFromString env date
      let today := setHoursZero env env.now
      if dateGe selectedDate today then
        .normal (showAlert "Please select a date from the past" "warning" w)
      else
        match w.historicalResult with
        | none => .throws w typeError
        | some _ =>
          let w1 := { w with
            historicalResult := some { innerHTML := loadingMarkup, display := "block" } }
          let request := historicalRequest city date
          let w2 := { w1 with requests := w1.requests ++ [request] }
          match fetch request with
          | .failed message =>
            .normal { w2 with
              historicalResult :=
                some { innerHTML := failureBanner message, display := "block" } }
          | .json data =>
            if (data.get "error").truthy then
              .normal { w2 with
                historicalResult :=
                  some { innerHTML := errorBanner (data.get "error").toStr,
                         display := "block" } }
            else
              match displayHistoricalData env data city date w2 with
              | .normal w3 => .normal w3
              | .throws w3 error =>
                .normal { w3 with
                  historicalResult :=
                    some { innerHTML := failureBanner error, display := "block" } }

/-- The header line of the CSV export. -/
def csvHeader : String :=
  "City,Date,Temperature (°C),Humidity (%),Pressure (hPa),Wind Speed (m/s),Description"

/-- The text `csvContent` of `downloadHistoricalData`. -/
def csvContent (city date : String) (data : JsObject) : String :=
  String.join [csvHeader, "\n"] ++
  String.join [city, ",", date, ",", (data.get "temperature").toStr, ",",
    (data.get "humidity").toStr, ",", (data.get "pressure").toStr, ",",
    (data.get "wind_speed").toStr, ",\"", (data.get "description").toStr, "\""]

/-- The function `downloadHistoricalData`: the CSV text is offered as a file
through a temporary link, then a success alert is shown. -/
def downloadHistoricalData (city date : String) (data : JsObject) (w : World) : World :=
  let file : Download :=
    { filename := String.join ["weather_", city, "_", date, ".csv"]
      content := csvContent city date data
      mimeType := "text/csv;charset=utf-8;" }
  showAlert "Weather data downloaded successfully!" "success"
    { w with downloads := w.downloads ++ [file] }

/-- What the platform offers for sharing: `share` is `navigator.share`
(`none` when the browser has none) and `clipboardWriteText` is
`navigator.clipboard.writeText` (`none` when there is no `navigator.clipboard`),
each with the way its promise settles. -/
structure Platform where
  share : Option (ShareData → Settled)
  clipboardWriteText : Option (String → Settled)

/-- The function `shareHistoricalData`, run until the promise it starts has
settled. -/
def shareHistoricalData (platform : Platform) (city date : String) (w : World) :
    Completion World :=
  match platform.share with
  | some share =>
    let shareData : ShareData :=
      { title := String.join ["Weather Data for ", city]
        text := String.join ["Historical weather data for ", city, " on ", date]
        url := w.href }
    let w1 := { w with shares := w.shares ++ [shareData] }
    match share shareData with
    | .resolved => .normal w1
    | .rejected reason => .normal { w1 with consoleErrors := w1.consoleErrors ++ [reason] }
  | none =>
    let url := w.href
    match platform.clipboardWriteText with
    | none => .throws w typeError
    | some writeText =>
      let w1 := { w with clipboardWrites := w.clipboardWrites ++ [url] }
      match writeText url with
      | .resolved => .normal (showAlert "Link copied to clipboard!" "info" w1)
      | .rejected _ => .normal (showAlert "Unable to share or copy link" "warning" w1)

/-! ## `script.js`: the mock forecast renderer -/

/-- The elements of the page whose `textContent` the script writes. -/
inductive TextId where
  | currentIcon | currentTemp | currentCondition | currentDate
  | currentHumidity | currentWind | currentProbability | errorText
  deriving DecidableEq

/-- An element made by `createForecastCard`. -/
structure Card where
  className : String
  innerHTML : String
  deriving DecidableEq

/-- What a pending timeout of the page will call. -/
inductive TimerAction where
  | hideError
  | hideLoading
  deriving DecidableEq

/-- The page `script.js` runs on.  An element that the page lacks is
`none`. -/
structure Page where
  /-- The `textContent` of each text element. -/
  texts : TextId → Option String
  /-- The children of `#forecastContainer`. -/
  forecastContainer : Option (List Card)
  /-- Whether `#errorMessage` has the class `show`. -/
  errorMessage : Option Bool
  /-- Whether `#loadingOverlay` has the class `show`. -/
  loadingOverlay : Option Bool
  /-- Pending timeouts: delay in milliseconds and action. -/
  timers : List (Nat × TimerAction)
  /-- Every `console.error` message, oldest first. -/
  consoleErrors : List String

/-- The statement `document.getElementById(id).textContent = text`, which
throws when there is no such element. -/
def setTextContent (id : TextId) (text : String) (p : Page) : Completion Page :=
  match p.texts id with
  | none => .throws p typeError
  | some _ => .normal { p with texts := fun j => if j = id then some text else p.texts j }

/-- Sequencing: the next statement runs only after a normal completion. -/
def Completion.andThen {σ : Type} (c : Completion σ) (f : σ → Completion σ) :
    Completion σ :=
  match c with
  | .normal s => f s
  | .throws s e => .throws s e

/-- The method `showLoading`. -/
def showLoading (p : Page) : Page :=
  match p.loadingOverlay with
  | some _ => { p with loadingOverlay := some true }
  | none => p

/-- The method `hideLoading`. -/
def hideLoading (p : Page) : Page :=
  match p.loadingOverlay with
  | some _ => { p with loadingOverlay := some false }
  | none => p

/-- The method `hideError`. -/
def hideError (p : Page) : Page :=
  match p.errorMessage with
  | some _ => { p with errorMessage := some false }
  | none => p

/-- The method `showError`: only when both `#errorMessage` and `#errorText`
exist is the message written, the banner shown and a timeout of 5 seconds set
to hide it. -/
def showError (message : String) (p : Page) : Page :=
  match p.errorMessage, p.texts TextId.errorText with
  | some _, some _ =>
    { p with
      texts := fun j => if j = TextId.errorText then some message else p.texts j
      errorMessage := some true
      timers := p.timers ++ [(5000, TimerAction.hideError)] }
  | _, _ => p

/-- The array `conditions`. -/
def conditions : List String := ["sunny", "cloudy", "rainy", "stormy"]

/-- The object `icons`, the same in both generators. -/
def icons : List (String × String) :=
  [("sunny", "☀️"), ("cloudy", "☁️"), ("rainy", "🌧️"), ("stormy", "⛈️")]

/-- The object `descriptions` of `generateCurrentWeather`. -/
def currentDescriptions : List (String × String) :=
  [("sunny", "Clear and bright"), ("cloudy", "Overcast skies"),
   ("rainy", "Light showers"), ("stormy", "Thunderstorms likely")]

/-- The object `descriptions` of `generateForecast`. -/
def forecastDescriptions : List (String × String) :=
  [("sunny", "Clear skies"), ("cloudy", "Overcast"),
   ("rainy", "Light rain"), ("stormy", "Thunderstorms")]

/-- Property access `table[key]` with a key that may be `undefined`; `none`
is `undefined`. -/
def tableGet (table : List (String × String)) (key : Option String) : Option String :=
  match key with
  | none => none
  | some k => table.lookup k

/-- The integer nearest to a rational, a tie going to the even one. -/
def roundHalfEven (q : ℚ) : Int :=
  let f := Int.floor q
  if q - f < 1 / 2 then f
  else if 1 / 2 < q - f then f + 1
  else if f % 2 = 0 then f else f + 1

/-- The exponent `e` of the binary64 binade of a non-negative rational: the
greatest with `2 ^ e ≤ x`, and `-1022` for zero and the subnormal range. -/
def binadeExponent (x : ℚ) : Int :=
  max (Int.log 2 x) (-1022)

/-- The binary64 number (an IEEE 754 double, as every ECMAScript Number)
nearest to a non-negative rational below `2 ^ 1024`, a tie going to the even
significand: the multiple of `2 ^ (e - 52)` nearest to `x`, where `e` is the
exponent of the binade of `x`. -/
def roundDouble (x : ℚ) : ℚ :=
  roundHalfEven (x / 2 ^ (binadeExponent x - 52)) * 2 ^ (binadeExponent x - 52)

/-- The rational is a binary64 number. -/
def IsDouble (r : ℚ) : Prop :=
  roundDouble r = r

/-- The expression `Math.floor(Math.random() * n)` for the draw `r` and an
integer `n`: the product of the two Numbers is rounded to binary64, then
floored. -/
def floorScaled (r : ℚ) (n : Int) : Int :=
  Int.floor (roundDouble (r * n))

/-- Array access `xs[i]`; `none` is `undefined`. -/
def arrayGet (xs : List String) (i : Int) : Option String :=
  if 0 ≤ i then xs.get? i.toNat else none

/-- The object under `current_weather`. -/
structure CurrentWeather where
  condition : Option String
  temperature : Int
  humidity : Int
  wind_speed : Int
  icon : Option String
  description : Option String
  probability : Int
  date : String
  time : String
  deriving DecidableEq

/-- The object `generateCurrentWeather` returns. -/
structure CurrentWeatherData where
  success : Bool
  current_weather : Option CurrentWeather
  deriving DecidableEq

/-- The method `generateCurrentWeather`; `draw k` is the result of the `k`-th
call of `Math.random()` (from 0). -/
def generateCurrentWeather (env : Env) (draw : Nat → ℚ) : CurrentWeatherData :=
  let condition := arrayGet conditions (floorScaled (draw 0) conditions.length)
  let now := env.now
  { success := true
    current_weather := some
      { condition := condition
        temperature := floorScaled (draw 1) 20 + 15
        humidity := floorScaled (draw 2) 40 + 40
        wind_speed := floorScaled (draw 3) 20 + 5
        icon := tableGet icons condition
        description := tableGet currentDescriptions condition
        probability := floorScaled (draw 4) 40 + 50
        date := isoDateString now
        time := localHourMinute env now } }

/-- Assignment of a possibly `undefined` string to `textContent`: the
attribute is nullable, so `undefined` clears the text. -/
def textOf (v : Option String) : String :=
  v.getD ""

/-- A possibly `undefined` string in a template literal. -/
def renderOpt (v : Option String) : String :=
  v.getD "undefined"

/-- The method `displayCurrentWeatherFallback`. -/
def displayCurrentWeatherFallback (env : Env) (p : Page) : Completion Page :=
  (setTextContent TextId.currentIcon "🌤️" p).andThen fun p =>
  (setTextContent TextId.currentTemp "22°C" p).andThen fun p =>
  (setTextContent TextId.currentCondition "Partly cloudy" p).andThen fun p =>
  (setTextContent TextId.currentDate (isoDateString env.now) p).andThen fun p =>
  (setTextContent TextId.currentHumidity "65%" p).andThen fun p =>
  (setTextContent TextId.currentWind "12 km/h" p).andThen fun p =>
  setTextContent TextId.currentProbability "75%" p

/-- The method `displayCurrentWeather`. -/
def displayCurrentWeather (env : Env) (data : CurrentWeatherData) (p : Page) :
    Completion Page :=
  match data.success, data.current_weather with
  | true, some weather =>
    (setTextContent TextId.currentIcon (textOf weather.icon) p).andThen fun p =>
    (setTextContent TextId.currentTemp (toString weather.temperature ++ "°C") p).andThen fun p =>
    (setTextContent TextId.currentCondition (textOf weather.description) p).andThen fun p =>
    (setTextContent TextId.currentDate (weather.date ++ " at " ++ weather.time) p).andThen fun p =>
    (setTextContent TextId.currentHumidity (toString weather.humidity ++ "%") p).andThen fun p =>
    (setTextContent TextId.currentWind (toString weather.wind_speed ++ " km/h") p).andThen fun p =>
    setTextContent TextId.currentProbability (toString weather.probability ++ "%") p
  | _, _ => displayCurrentWeatherFallback env p

/-- The method `loadCurrentWeather`, run until its promise settles: a throw
inside `try` is logged and handled by the `catch` block, a throw inside the
`catch` block rejects the promise. -/
def loadCurrentWeather (env : Env) (draw : Nat → ℚ) (p : Page) : Completion Page :=
  let currentWeather := generateCurrentWeather env draw
  match displayCurrentWeather env currentWeather p with
  | .normal p1 => .normal p1
  | .throws p1 error =>
    let p2 := { p1 with
      consoleErrors := p1.consoleErrors ++ ["Error loading current weather: " ++ error] }
    let p3 := showError "Failed to load current weather data" p2
    displayCurrentWeatherFallback env p3

/-- One entry of the array `forecast`. -/
structure ForecastDay where
  date : String
  day : String
  condition : Option String
  temperature : Int
  humidity : Int
  wind_speed : Int
  icon : Option String
  description : Option String
  probability : Int
  deriving DecidableEq

/-- The object `generateForecast` returns, also the argument of
`displayForecast`. -/
structure ForecastData where
  success : Bool
  forecast : Option (List ForecastDay)
  deriving DecidableEq

/-- The entry that round `i` of the loop of `generateForecast` pushes; the
round makes the draws `5 * i` to `5 * i + 4`. -/
def forecastEntry (env : Env) (draw : Nat → ℚ) (today : Int) (i : Nat) : ForecastDay :=
  let date := setDate env today (getDate env today + i)
  let condition := arrayGet conditions (floorScaled (draw (5 * i)) conditions.length)
  { date := isoDateString date
    day := localWeekdayLong env date
    condition := condition
    temperature := floorScaled (draw (5 * i + 1)) 20 + 10
    humidity := floorScaled (draw (5 * i + 2)) 40 + 40
    wind_speed := floorScaled (draw (5 * i + 3)) 20 + 5
    icon := tableGet icons condition
    description := tableGet forecastDescriptions condition
    probability := floorScaled (draw (5 * i + 4)) 60 + 30 }

/-- The loop `for (let i = from; i < 7; i++)` of `generateForecast`, with the
array built so far; `fuel` bounds the number of rounds. -/
def forecastLoop (env : Env) (draw : Nat → ℚ) (today : Int) :
    Nat → Nat → List ForecastDay → List ForecastDay
  | 0, _, forecast => forecast
  | fuel + 1, i, forecast =>
    if i < 7 then
      forecastLoop env draw today fuel (i + 1) (forecast ++ [forecastEntry env draw today i])
    else forecast

/-- The method `generateForecast`. -/
def generateForecast (env : Env) (draw : Nat → ℚ) : ForecastData :=
  let today := env.now
  { success := true
    forecast := some (forecastLoop env draw today 7 0 []) }

/-- The fields `createForecastCard` reads. -/
structure CardFields where
  day : String
  icon : Option String
  temperature : Int
  condition : Option String
  probability : Int
  deriving DecidableEq

/-- The fields of a forecast entry that the card shows. -/
def ForecastDay.cardFields (d : ForecastDay) : CardFields :=
  { day := d.day, icon := d.icon, temperature := d.temperature,
    condition := d.condition, probability := d.probability }

/-- The method `createForecastCard`. -/
def createForecastCard (dayData : CardFields) : Card :=
  { className := "forecast-card"
    innerHTML := String.join [
      "\n",
      "            <div class=\"day\">", dayData.day, "</div>\n",
      "            <div class=\"weather-icon\">", renderOpt dayData.icon, "</div>\n",
      "            <div class=\"temperature\">", toString dayData.temperature, "°C</div>\n",
      "            <div class=\"condition\">", renderOpt dayData.condition, "</div>\n",
      "            <div class=\"probability\">", toString dayData.probability, "%</div>\n",
      "        "] }

/-- The array `fallbackData` of `displayForecastFallback`. -/
def fallbackData : List CardFields :=
  [ { day := "Today", icon := some "☀️", temperature := 22, condition := some "sunny", probability := 85 },
    { day := "Tomorrow", icon := some "☁️", temperature := 19, condition := some "cloudy", probability := 70 },
    { day := "Friday", icon := some "🌧️", temperature := 16, condition := some "rainy", probability := 90 },
    { day := "Saturday", icon := some "☁️", temperature := 18, condition := some "cloudy", probability := 65 },
    { day := "Sunday", icon := some "☀️", temperature := 24, condition := some "sunny", probability := 80 },
    { day := "Monday", icon := some "🌧️", temperature := 15, condition := some "rainy", probability := 85 },
    { day := "Tuesday", icon := some "☀️", temperature := 21, condition := some "sunny", probability := 75 } ]

/-- The method `displayForecastFallback`. -/
def displayForecastFallback (p : Page) : Page :=
  match p.forecastContainer with
  | none => p
  | some _ => { p with forecastContainer := some (fallbackData.map createForecastCard) }

/-- The method `displayForecast`; the argument `none` is `null` or
`undefined`, whose property access throws. -/
def displayForecast (data : Option ForecastData) (p : Page) : Completion Page :=
  match p.forecastContainer with
  | none => .normal p
  | some _ =>
    match data with
    | none => .throws p typeError
    | some data =>
      match data.success, data.forecast with
      | true, some forecast =>
        .normal { p with
          forecastContainer := some (forecast.map fun day => createForecastCard day.cardFields) }
      | _, _ => .normal (displayForecastFallback p)

/-- The method `loadForecast`, run until its promise settles. -/
def loadForecast (env : Env) (draw : Nat → ℚ) (p : Page) : Completion Page :=
  let forecast := generateForecast env draw
  match displayForecast (some forecast) p with
  | .normal p1 => .normal p1
  | .throws p1 error =>
    let p2 := { p1 with
      consoleErrors := p1.consoleErrors ++ ["Error loading forecast: " ++ error] }
    let p3 := showError "Failed to load weather forecast" p2
    .normal (displayForecastFallback p3)

/-- The `catch` block of `refreshAll`. -/
def refreshAllCatch (error : String) (p : Page) : Page :=
  let p1 := { p with consoleErrors := p.consoleErrors ++ ["Error refreshing data: " ++ error] }
  showError "Failed to refresh weather data" (hideLoading p1)

/-- The states of the page that one call of `refreshAll` goes through, in the
order of time. -/
structure RefreshRun where
  /-- The page when `this.showLoading()` has returned. -/
  shown : Page
  /-- The page and the outcome when `this.loadCurrentWeather()` has returned
  its promise. -/
  current : Completion Page
  /-- The page and the outcome when `this.loadForecast()` has returned its
  promise. -/
  forecast : Completion Page
  /-- The page when the promise of `refreshAll` settles. -/
  settled : Page

/-- The method `refreshAll`, run until its promise settles, with the states
on the way.  The two load methods have no `await` inside, so each runs to its
end when it is called, `loadCurrentWeather` first; `Promise.all` then rejects
with the first rejection, if there is one.  The forecast takes its draws after
the five of the current weather. -/
def refreshAllRun (env : Env) (draw : Nat → ℚ) (p : Page) : RefreshRun :=
  let p0 := showLoading p
  let current := loadCurrentWeather env draw p0
  let forecast := loadForecast env (fun k => draw (k + 5)) current.state
  { shown := p0
    current := current
    forecast := forecast
    settled :=
      match current, forecast with
      | .normal _, .normal p2 =>
        { p2 with timers := p2.timers ++ [(1000, TimerAction.hideLoading)] }
      | .normal _, .throws p2 error => refreshAllCatch error p2
      | .throws _ error, later => refreshAllCatch error later.state }

/-- The method `refreshAll`: the page when its promise settles. -/
def refreshAll (env : Env) (draw : Nat → ℚ) (p : Page) : Page :=
  (refreshAllRun env draw p).settled

/-- What a timeout does when it fires. -/
def runTimer (action : TimerAction) (p : Page) : Page :=
  match action with
  | TimerAction.hideError => hideError p
  | TimerAction.hideLoading => hideLoading p

/-- The pending timeouts fire in the given order and are pending no more. -/
def fireTimers (order : List TimerAction) (p : Page) : Page :=
  order.foldl (fun q action => runTimer action q) { p with timers := [] }

/-! ## Sample inputs -/

/-- A clock at 2024-06-15T17:00:00Z in a zone on UTC. -/
def sampleEnv : Env :=
  { now := 1718470800000, tzOffsetMinutes := 0, otherDateForms := fun _ => none }

/-- The same instant in a zone five hours behind UTC, where it is noon of
2024-06-15. -/
def westEnv : Env :=
  { now := 1718470800000, tzOffsetMinutes := -300, otherDateForms := fun _ => none }

/-- A freshly loaded page with the two inputs filled in. -/
def sampleWorld (city date : String) : World :=
  { historicalCity := some city, historicalDate := some date,
    historicalResult := some { innerHTML := "", display := "none" },
    customAlerts := [], shown := [], timers := [], requests := [], downloads := [],
    shares := [], clipboardWrites := [], consoleErrors := [],
    href := "http://localhost:5000/" }

/-- A network that is down. -/
def noAnswer : Request → FetchOutcome := fun _ => .failed "Failed to fetch"

/-- A network that answers every request with the given object. -/
def answers (data : JsObject) : Request → FetchOutcome := fun _ => .json data

/-! ## Properties: what the claims speak of -/

/-- The run `r` from the world `w` ended normally having done one thing
only: it showed the single warning `message`.  No request was sent and the
result panel was not written. -/
def RejectedWith (w : World) (r : Completion World) (message : String) : Prop :=
  r.isThrow = false ∧
  r.state.shown = w.shown ++ [{ message := message, type := "warning" }] ∧
  r.state.customAlerts = [{ message := message, type := "warning" }] ∧
  r.state.requests = w.requests ∧
  r.state.historicalResult = w.historicalResult

/-- The condition is one of the four of `conditions`, and the icon and the
description are the ones that `icons` and the table `descriptions` give for
that condition. -/
def ConditionWith (descriptions : List (String × String))
    (condition icon description : Option String) : Prop :=
  ∃ c i d, condition = some c ∧ icon = some i ∧ description = some d ∧
    c ∈ conditions ∧ (c, i) ∈ icons ∧ (c, d) ∈ descriptions

/-- A random source that always draws the binary64 number
`4278419646001971 / 2 ^ 52` (about 0.95), whose product with 20 is rounded up
across an integer: the exact product is below 19, the binary64 product is
19. -/
def sampleDraw : Nat → ℚ := fun _ => 4278419646001971 / 2 ^ 52

/-- A random source that always draws `1/2`. -/
def halfDraw : Nat → ℚ := fun _ => 1 / 2

/-- A page of the mock renderer with every element present but one text
element, the texts empty and nothing shown. -/
def pageWithout (missing : TextId) : Page :=
  { texts := fun id => if id = missing then none else some ""
    forecastContainer := some []
    errorMessage := some false
    loadingOverlay := some false
    timers := []
    consoleErrors := [] }

/-- A page of the mock renderer with every element but `#forecastContainer`. -/
def pageWithoutContainer : Page :=
  { texts := fun _ => some ""
    forecastContainer := none
    errorMessage := some false
    loadingOverlay := some false
    timers := []
    consoleErrors := [] }

/-- The text elements `displayCurrentWeather` and its fallback write, in the
order they write them. -/
def currentTextIds : List TextId :=
  [TextId.currentIcon, TextId.currentTemp, TextId.currentCondition, TextId.currentDate,
   TextId.currentHumidity, TextId.currentWind, TextId.currentProbability]

/-- The page `q` has the same text elements as the page `p`. -/
def SamePresence (p q : Page) : Prop :=
  ∀ id, (q.texts id).isSome = (p.texts id).isSome

/-- A browser with `navigator.share`, whose promise settles as given. -/
def sharingPlatform (outcome : Settled) : Platform :=
  { share := some fun _ => outcome, clipboardWriteText := some fun _ => Settled.resolved }

/-- A browser without `navigator.share`, whose clipboard write settles as
given. -/
def clipboardPlatform (outcome : Settled) : Platform :=
  { share := none, clipboardWriteText := some fun _ => outcome }

/-- The characters the sentence names, read literally: a letter of the Latin
alphabet, the space character, a comma, a dot or a hyphen. -/
def isPlainCityChar (c : Char) : Bool :=
  c.isAlpha || c == ' ' || c == ',' || c == '.' || c == '-'

/-- A page of the mock renderer with every element, nothing shown. -/
def fullPage : Page :=
  { texts := fun _ => some ""
    forecastContainer := some []
    errorMessage := some false
    loadingOverlay := some false
    timers := []
    consoleErrors := [] }

/-- The page `q` has its loading overlay in the same state as the page `p`. -/
def SameOverlay (p q : Page) : Prop :=
  q.loadingOverlay = p.loadingOverlay

/-- A clock at 2024-06-14T20:30:00Z in a zone five and a half hours ahead of
UTC, where it is 02:00 of Saturday 2024-06-15. -/
def eastEnv : Env :=
  { now := 1718397000000, tzOffsetMinutes := 330, otherDateForms := fun _ => none }

/-- Value of a hexadecimal digit of either case, if the character is one. -/
def hexValue (c : Char) : Option Nat :=
  let n := c.toNat
  if 0x30 ≤ n ∧ n ≤ 0x39 then some (n - 0x30)
  else if 0x41 ≤ n ∧ n ≤ 0x46 then some (n - 0x41 + 10)
  else if 0x61 ≤ n ∧ n ≤ 0x66 then some (n - 0x61 + 10)
  else none

/-- The octet that two leading hexadecimal digits write, if the list starts
with two. -/
def hexPair : List Char → Option Nat
  | h :: l :: _ =>
    match hexValue h, hexValue l with
    | some a, some b => some (16 * a + b)
    | _, _ => none
  | _ => none

/-- Percent-decoding to octets, the first `skip` characters passed over: `%`
with two hexadecimal digits is the octet they write (and the two digits are
passed over), anything else stands for its own UTF-8 octets. -/
def percentDecodeFrom : Nat → List Char → List Nat
  | _, [] => []
  | skip + 1, _ :: rest => percentDecodeFrom skip rest
  | 0, c :: rest =>
    if c = '%' then
      match hexPair rest with
      | some octet => octet :: percentDecodeFrom 2 rest
      | none => 0x25 :: percentDecodeFrom 0 rest
    else utf8Octets c.toNat ++ percentDecodeFrom 0 rest

/-- Percent-decoding of a list of characters to octets. -/
def percentDecode (cs : List Char) : List Nat :=
  percentDecodeFrom 0 cs

/-- UTF-8 decoding, one octet at a time: `need` continuation octets are still
to come for the code point gathered in `acc`.  An octet that cannot stand
where it stands gives `none`. -/
def utf8Decode : List Nat → Nat → Nat → Option (List Char)
  | [], 0, _ => some []
  | [], _ + 1, _ => none
  | b :: rest, 0, _ =>
    if b < 0x80 then (utf8Decode rest 0 0).map (Char.ofNat b :: ·)
    else if 0xC0 ≤ b ∧ b < 0xE0 then utf8Decode rest 1 (b - 0xC0)
    else if 0xE0 ≤ b ∧ b < 0xF0 then utf8Decode rest 2 (b - 0xE0)
    else if 0xF0 ≤ b ∧ b < 0xF8 then utf8Decode rest 3 (b - 0xF0)
    else none
  | b :: rest, need + 1, acc =>
    if 0x80 ≤ b ∧ b < 0xC0 then
      if need = 0 then
        (utf8Decode rest 0 0).map (Char.ofNat (acc * 64 + (b - 0x80)) :: ·)
      else utf8Decode rest need (acc * 64 + (b - 0x80))
    else none

/-- The pieces of a list between the occurrences of a separator. -/
def splitOnChar (sep : Char) : List Char → List (List Char)
  | [] => [[]]
  | c :: rest =>
    if c = sep then [] :: splitOnChar sep rest
    else
      match splitOnChar sep rest with
      | [] => [[c]]
      | first :: more => (c :: first) :: more

/-- The part before the first occurrence of a separator and the part after
it; without the separator, the whole list and nothing. -/
def breakAtChar (sep : Char) : List Char → List Char × List Char
  | [] => ([], [])
  | c :: rest =>
    if c = sep then ([], rest)
    else (c :: (breakAtChar sep rest).1, (breakAtChar sep rest).2)

/-- All the values, if none is missing. -/
def collectSome {α : Type} : List (Option α) → Option (List α)
  | [] => some []
  | none :: _ => none
  | some a :: rest => (collectSome rest).map (a :: ·)

/-- One name or value of a form body: `+` is a space, then percent-decoding,
then UTF-8 decoding. -/
def formDecodeComponent (cs : List Char) : Option String :=
  (utf8Decode (percentDecode (cs.map fun c => if c = '+' then ' ' else c)) 0 0).map String.mk

/-- Decoding of an `application/x-www-form-urlencoded` body: the body is split
at `&`, empty pieces are dropped, each piece is split at its first `=` into a
name and a value, and both are decoded. -/
def formDecode (body : String) : Option (List (String × String)) :=
  collectSome (((splitOnChar '&' body.data).filter fun piece => !piece.isEmpty).map
    fun piece =>
      match formDecodeComponent (breakAtChar '=' piece).1,
          formDecodeComponent (breakAtChar '=' piece).2 with
      | some name, some value => some (name, value)
      | _, _ => none)

/-- What `encodeURIComponent` writes for one character. -/
def encodeChar (c : Char) : List Char :=
  if isUriUnreserved c then [c] else (utf8Octets c.toNat).flatMap percentOctet

/-- Reading CSV text as the sentence reads it: a comma outside double quotes
ends a field, a line feed outside double quotes ends a row, and a double quote
opens or closes a quoted stretch and is not part of the field.  `field` holds
the characters of the field being read, last first, and `row` the fields of
the row being read, last first. -/
def csvRows : List Char → Bool → List Char → List String → List (List String)
  | [], _, field, row => [(String.mk field.reverse :: row).reverse]
  | c :: rest, inQuotes, field, row =>
    if c = '"' then csvRows rest (!inQuotes) field row
    else if c = ',' ∧ inQuotes = false then
      csvRows rest false [] (String.mk field.reverse :: row)
    else if c = '\n' ∧ inQuotes = false then
      (String.mk field.reverse :: row).reverse :: csvRows rest false [] []
    else csvRows rest inQuotes (c :: field) row

/-- The rows of fields of a CSV text. -/
def readCsv (text : String) : List (List String) :=
  csvRows text.data false [] []

/-- The record of the example: 10 degrees, 80 percent, 1012 hPa, 3 m/s, clear
sky. -/
def sampleRecord : JsObject :=
  [("temperature", JsValue.num 10), ("humidity", JsValue.num 80),
   ("pressure", JsValue.num 1012), ("wind_speed", JsValue.num 3),
   ("description", JsValue.str "clear sky")]

/-- A field that can stand in CSV without quotes: no comma, no double quote,
no line feed. -/
def PlainField (s : String) : Prop :=
  ∀ c ∈ s.data, c ≠ '"' ∧ c ≠ ',' ∧ c ≠ '\n'

/-- Percent-encoding written out for the characters a valid city can hold, as
a table that owes nothing to `encodeURIComponent` above: a letter, a dot and a
hyphen stand for themselves; a comma and each white-space character are
written as `%` and two upper-case hexadecimal digits for each octet of their
UTF-8 form (RFC 3629, RFC 3986). -/
def percentEncodedCityChar (c : Char) : String :=
  match c.toNat with
  | 0x2C => "%2C"
  | 0x20 => "%20"
  | 0x9 => "%09"
  | 0xA => "%0A"
  | 0xB => "%0B"
  | 0xC => "%0C"
  | 0xD => "%0D"
  | 0xA0 => "%C2%A0"
  | 0x1680 => "%E1%9A%80"
  | 0x2000 => "%E2%80%80"
  | 0x2001 => "%E2%80%81"
  | 0x2002 => "%E2%80%82"
  | 0x2003 => "%E2%80%83"
  | 0x2004 => "%E2%80%84"
  | 0x2005 => "%E2%80%85"
  | 0x2006 => "%E2%80%86"
  | 0x2007 => "%E2%80%87"
  | 0x2008 => "%E2%80%88"
  | 0x2009 => "%E2%80%89"
  | 0x200A => "%E2%80%8A"
  | 0x2028 => "%E2%80%A8"
  | 0x2029 => "%E2%80%A9"
  | 0x202F => "%E2%80%AF"
  | 0x205F => "%E2%81%9F"
  | 0x3000 => "%E3%80%80"
  | 0xFEFF => "%EF%BB%BF"
  | _ => String.singleton c

/-- The code points of the class `[a-zA-Z\s,.-]`. -/
def cityCodePoints : List Nat :=
  (List.range 26).map (· + 0x61) ++ (List.range 26).map (· + 0x41) ++
  [0x9, 0xA, 0xB, 0xC, 0xD, 0x20, 0xA0, 0x1680] ++ (List.range 11).map (· + 0x2000) ++
  [0x2028, 0x2029, 0x202F, 0x205F, 0x3000, 0xFEFF, 0x2C, 0x2E, 0x2D]

/-! ## Lemmas -/

theorem matchClassPlus_eq (cls : Char → Bool) (cs : List Char) :
    matchClassPlus cls cs = (!cs.isEmpty && cs.all cls) := by
  induction cs with
  | nil => rfl
  | cons c rest ih =>
    cases rest with
    | nil => simp [matchClassPlus]
    | cons d rest2 =>
      rw [matchClassPlus, ih]
      · simp
      · exact List.cons_ne_nil d rest2

theorem validateCityInput_eq (s : String) :
    validateCityInput s = (!s.data.isEmpty && s.data.all cityClass) := by
  unfold validateCityInput cityPatternTest
  rw [matchClassPlus_eq]
  cases (!s.data.isEmpty && s.data.all cityClass) <;> rfl

theorem validateCityInput_false_of_mem (s : String) (c : Char) (hc : c ∈ s.data)
    (hbad : cityClass c = false) : validateCityInput s = false := by
  rw [validateCityInput_eq]
  have : s.data.all cityClass = false := by
    rw [List.all_eq_false]
    exact ⟨c, hc, by simp [hbad]⟩
  simp [this]

theorem rejectedWith_showAlert (w : World) (message : String) :
    RejectedWith w (.normal (showAlert message "warning" w)) message := by
  simp [RejectedWith, Completion.isThrow, Completion.state, showAlert]

theorem ne_empty_of_mem_data (s : String) (c : Char) (hc : c ∈ s.data) : s ≠ "" := by
  intro h
  rw [h] at hc
  simp at hc

theorem getHistoricalData_dispatch (env : Env) (fetch : Request → FetchOutcome)
    (w : World) (cityValue date : String) (panel : Panel)
    (hcity : w.historicalCity = some cityValue) (hdate : w.historicalDate = some date)
    (hpanel : w.historicalResult = some panel)
    (hne : jsTrim cityValue ≠ "") (hd : date ≠ "")
    (hval : validateCityInput (jsTrim cityValue) = true)
    (hpast : dateGe (dateFromString env date) (setHoursZero env env.now) = false) :
    (getHistoricalData env fetch w).isThrow = false ∧
    (getHistoricalData env fetch w).state.requests =
      w.requests ++ [historicalRequest (jsTrim cityValue) date] ∧
    (getHistoricalData env fetch w).state.shown = w.shown := by
  simp only [getHistoricalData, hcity, hdate, hpanel, hne, hd, hval, hpast, or_self,
    if_false, Bool.not_true, Bool.false_eq_true]
  cases fetch (historicalRequest (jsTrim cityValue) date) with
  | failed message => simp [Completion.isThrow, Completion.state]
  | json data =>
    by_cases ht : (JsObject.get data "error").truthy = true
    · simp [ht, Completion.isThrow, Completion.state]
    · simp [ht, displayHistoricalData, Completion.isThrow, Completion.state]

theorem getHistoricalData_json (env : Env) (fetch : Request → FetchOutcome)
    (w : World) (cityValue date : String) (panel : Panel) (data : JsObject)
    (hcity : w.historicalCity = some cityValue) (hdate : w.historicalDate = some date)
    (hpanel : w.historicalResult = some panel)
    (hne : jsTrim cityValue ≠ "") (hd : date ≠ "")
    (hval : validateCityInput (jsTrim cityValue) = true)
    (hpast : dateGe (dateFromString env date) (setHoursZero env env.now) = false)
    (hresp : fetch (historicalRequest (jsTrim cityValue) date) = .json data) :
    getHistoricalData env fetch w = .normal { w with
      requests := w.requests ++ [historicalRequest (jsTrim cityValue) date]
      historicalResult := some
        { innerHTML :=
            if (data.get "error").truthy then errorBanner (data.get "error").toStr
            else historicalCard data (jsTrim cityValue) date
              (localLongDate env (dateFromString env date))
          display := "block" } } := by
  simp only [getHistoricalData, hcity, hdate, hpanel, hne, hd, hval, hpast, or_self,
    if_false, Bool.not_true, Bool.false_eq_true, hresp]
  by_cases ht : (JsObject.get data "error").truthy = true
  · simp [ht]
  · simp [ht, displayHistoricalData]

theorem errorBanner_take (s : String) :
    (errorBanner s).data.take 10 = "\n         ".data := by
  rfl

theorem historicalCard_take (data : JsObject) (city date formattedDate : String) :
    (historicalCard data city date formattedDate).data.take 10 = "\n        <".data := by
  unfold historicalCard
  rw [String.data_join, List.map_cons, List.map_cons, List.flatten_cons, List.flatten_cons]
  rfl

theorem errorBanner_ne_card (s : String) (data : JsObject)
    (city date formattedDate : String) :
    errorBanner s ≠ historicalCard data city date formattedDate := by
  intro h
  have h1 := errorBanner_take s
  rw [h, historicalCard_take] at h1
  exact absurd h1 (by decide)

theorem errorBanner_eq (s : String) : errorBanner s =
    "\n                <div class=\"alert alert-danger\">\n                    <i class=\"fas fa-exclamation-triangle\"></i> " ++ s ++ "\n                </div>\n            " := by
  apply String.ext
  simp only [errorBanner, String.join, List.foldl, String.data_append, List.append_assoc]
  rfl

theorem roundHalfEven_le (q : ℚ) : (roundHalfEven q : ℚ) ≤ q + 1 / 2 := by
  have h1 := Int.floor_le q
  have h2 := Int.lt_floor_add_one q
  unfold roundHalfEven
  simp only []
  split_ifs with ha hb hc
  · linarith
  · push_cast; linarith
  · linarith
  · push_cast; linarith

theorem roundHalfEven_nonneg (q : ℚ) (h : 0 ≤ q) : 0 ≤ roundHalfEven q := by
  have h1 : 0 ≤ Int.floor q := Int.floor_nonneg.mpr h
  unfold roundHalfEven
  simp only []
  split_ifs <;> omega

theorem binadeExponent_le (x : ℚ) (E : Int) (h0 : 0 ≤ x) (hE : 0 ≤ E)
    (hx : x < 2 ^ (E + 1)) : binadeExponent x ≤ E := by
  unfold binadeExponent
  apply max_le _ (by omega)
  rcases h0.eq_or_lt with h | h
  · rw [← h, Int.log_zero_right]; exact hE
  · have := (Int.lt_zpow_iff_log_lt (b := 2) (by norm_num) h).mp (by exact_mod_cast hx)
    omega

theorem roundDouble_nonneg (x : ℚ) (h0 : 0 ≤ x) : 0 ≤ roundDouble x := by
  unfold roundDouble
  have hu : (0 : ℚ) < 2 ^ (binadeExponent x - 52) := by positivity
  have := roundHalfEven_nonneg (x / 2 ^ (binadeExponent x - 52)) (div_nonneg h0 hu.le)
  have h2 : (0 : ℚ) ≤ (roundHalfEven (x / 2 ^ (binadeExponent x - 52)) : ℚ) := by exact_mod_cast this
  exact mul_nonneg h2 hu.le

theorem roundDouble_le (x : ℚ) (E : Int) (h0 : 0 ≤ x) (hE : 0 ≤ E) (hx : x < 2 ^ (E + 1)) :
    roundDouble x ≤ x + 2 ^ (E - 53) := by
  have he := binadeExponent_le x E h0 hE hx
  unfold roundDouble
  generalize binadeExponent x = e at he ⊢
  have hu : (0 : ℚ) < 2 ^ (e - 52) := by positivity
  have hr := roundHalfEven_le (x / 2 ^ (e - 52))
  have h1 : (roundHalfEven (x / 2 ^ (e - 52)) : ℚ) * 2 ^ (e - 52) ≤
      (x / 2 ^ (e - 52) + 1 / 2) * 2 ^ (e - 52) := mul_le_mul_of_nonneg_right hr hu.le
  have h2 : (x / 2 ^ (e - 52) + 1 / 2) * (2 : ℚ) ^ (e - 52) = x + 2 ^ (e - 52) / 2 := by
    generalize (2 : ℚ) ^ (e - 52) = u at hu ⊢
    have hne : u ≠ 0 := hu.ne'
    field_simp
    ring
  have h3 : (2 : ℚ) ^ (e - 52) / 2 = 2 ^ (e - 53) := by
    rw [show e - 52 = (e - 53) + 1 by ring, zpow_add_one₀ (by norm_num)]
    field_simp
  have h4 : (2 : ℚ) ^ (e - 53) ≤ 2 ^ (E - 53) :=
    zpow_le_zpow_right₀ (by norm_num) (by omega)
  linarith

theorem double_lt_one (r : ℚ) (hd : IsDouble r) (h1 : r < 1) :
    r ≤ 1 - 2 ^ (-53 : Int) := by
  by_cases hhalf : r < 1 / 2
  · have : (2 : ℚ) ^ (-53 : Int) ≤ 1 / 2 := by
      rw [show (1 / 2 : ℚ) = 2 ^ (-1 : Int) by norm_num]
      exact zpow_le_zpow_right₀ (by norm_num) (by norm_num)
    generalize (2 : ℚ) ^ (-53 : Int) = u at this ⊢
    linarith
  · push_neg at hhalf
    have hpos : 0 < r := by linarith
    have hlog : Int.log 2 r = -1 := by
      apply le_antisymm
      · have := (Int.lt_zpow_iff_log_lt (b := 2) (by norm_num) hpos (x := 0)).mp (by simpa using h1)
        omega
      · exact (Int.zpow_le_iff_le_log (b := 2) (by norm_num) hpos).mp (by
          rw [show ((2 : ℕ) : ℚ) ^ (-1 : Int) = 1 / 2 by norm_num]; exact hhalf)
    unfold IsDouble roundDouble binadeExponent at hd
    rw [hlog] at hd
    have he : max (-1 : Int) (-1022) - 52 = -53 := by norm_num
    rw [he] at hd
    set R := roundHalfEven (r / 2 ^ (-53 : Int)) with hR
    have hu : (0 : ℚ) < 2 ^ (-53 : Int) := by positivity
    have hRlt : (R : ℚ) < 2 ^ (53 : Int) := by
      have : (R : ℚ) * 2 ^ (-53 : Int) < 1 := by rw [hd]; exact h1
      have h2 : (R : ℚ) = (R : ℚ) * 2 ^ (-53 : Int) * 2 ^ (53 : Int) := by
        rw [mul_assoc, ← zpow_add₀ (by norm_num : (2 : ℚ) ≠ 0)]; simp
      rw [h2]
      have hp : (0 : ℚ) < 2 ^ (53 : Int) := by positivity
      calc (R : ℚ) * 2 ^ (-53 : Int) * 2 ^ (53 : Int) < 1 * 2 ^ (53 : Int) :=
            mul_lt_mul_of_pos_right this hp
        _ = 2 ^ (53 : Int) := one_mul _
    have hRle : R ≤ 2 ^ 53 - 1 := by
      have : (R : ℚ) < ((2 ^ 53 : Int) : ℚ) := by
        rw [show (((2 : Int) ^ 53 : Int) : ℚ) = (2 : ℚ) ^ (53 : Int) by norm_num]; exact hRlt
      have := Int.cast_lt.mp this
      omega
    have hRq : (R : ℚ) ≤ 2 ^ (53 : Int) - 1 := by
      have : (R : ℚ) ≤ ((2 ^ 53 - 1 : Int) : ℚ) := Int.cast_le.mpr hRle
      rw [show (((2 : Int) ^ 53 - 1 : Int) : ℚ) = (2 : ℚ) ^ (53 : Int) - 1 by norm_num] at this
      exact this
    rw [← hd]
    calc (R : ℚ) * 2 ^ (-53 : Int) ≤ (2 ^ (53 : Int) - 1) * 2 ^ (-53 : Int) :=
          mul_le_mul_of_nonneg_right hRq hu.le
      _ = 1 - 2 ^ (-53 : Int) := by
          rw [sub_mul, ← zpow_add₀ (by norm_num : (2 : ℚ) ≠ 0)]; simp

/-- The bound the generators rest on: for a binary64 draw below 1 and an
integer `n` with `2 ^ E < n ≤ 2 ^ (E + 1)`, the rounded product stays below
`n`, because `n - n / 2 ^ 53` is more than half a unit in the last place away
from `n`. -/
theorem floorScaled_bounds (r : ℚ) (n E : Int) (hd : IsDouble r) (h0 : 0 ≤ r) (h1 : r < 1)
    (hE : 0 ≤ E) (hlo : (2 : ℚ) ^ E < n) (hhi : (n : ℚ) ≤ 2 ^ (E + 1)) :
    0 ≤ floorScaled r n ∧ floorScaled r n < n := by
  unfold floorScaled
  have hn : (0 : ℚ) < n := lt_trans (by positivity) hlo
  have hx0 : 0 ≤ r * n := mul_nonneg h0 hn.le
  have hr := double_lt_one r hd h1
  have hxle : r * n ≤ (1 - 2 ^ (-53 : Int)) * n := mul_le_mul_of_nonneg_right hr hn.le
  have hsmall : (0 : ℚ) < 2 ^ (-53 : Int) := by positivity
  have hxlt : r * n < 2 ^ (E + 1) := by nlinarith
  have hround := roundDouble_le (r * n) E hx0 hE hxlt
  have hpow : (2 : ℚ) ^ (E - 53) = 2 ^ E * 2 ^ (-53 : Int) := by
    rw [← zpow_add₀ (by norm_num : (2 : ℚ) ≠ 0)]; congr 1
  have hgap : (2 : ℚ) ^ (E - 53) < 2 ^ (-53 : Int) * n := by
    rw [hpow, mul_comm]
    exact mul_lt_mul_of_pos_left hlo hsmall
  constructor
  · exact Int.floor_nonneg.mpr (roundDouble_nonneg _ hx0)
  · apply Int.floor_lt.mpr
    nlinarith

theorem binadeExponent_eq (x : ℚ) (e : Int) (he : -1022 ≤ e) (hlo : (2 : ℚ) ^ e ≤ x)
    (hhi : x < 2 ^ (e + 1)) : binadeExponent x = e := by
  have hpos : 0 < x := lt_of_lt_of_le (by positivity) hlo
  have hlog : Int.log 2 x = e := by
    apply le_antisymm
    · have := (Int.lt_zpow_iff_log_lt (b := 2) (by norm_num) hpos).mp (by exact_mod_cast hhi)
      omega
    · exact (Int.zpow_le_iff_le_log (b := 2) (by norm_num) hpos).mp (by exact_mod_cast hlo)
  unfold binadeExponent
  rw [hlog]
  exact max_eq_left he

theorem roundHalfEven_intCast (m : Int) : roundHalfEven (m : ℚ) = m := by
  unfold roundHalfEven
  simp

theorem isDouble_of_scaled (x : ℚ) (m e : Int) (he : -1022 ≤ e) (hlo : (2 : ℚ) ^ e ≤ x)
    (hhi : x < 2 ^ (e + 1)) (hx : x = m * 2 ^ (e - 52)) : IsDouble x := by
  unfold IsDouble roundDouble
  rw [binadeExponent_eq x e he hlo hhi]
  have hu : (2 : ℚ) ^ (e - 52) ≠ 0 := by positivity
  have hq : x / 2 ^ (e - 52) = (m : ℚ) := by rw [hx]; field_simp
  rw [hq, roundHalfEven_intCast, ← hx]

theorem sampleDraw_isDouble (k : Nat) :
    IsDouble (sampleDraw k) ∧ 0 ≤ sampleDraw k ∧ sampleDraw k < 1 := by
  refine ⟨isDouble_of_scaled _ 8556839292003942 (-1) (by norm_num) ?_ ?_ ?_, ?_, ?_⟩ <;>
    norm_num [sampleDraw]

/-- Where rounding matters: for the sample draw, `Math.floor(r * 20)` is 19,
one more than the floor of the exact product. -/
theorem floorScaled_sampleDraw :
    floorScaled (sampleDraw 0) 20 = 19 ∧
    Int.floor (sampleDraw 0 * (20 : Int)) = 18 := by
  unfold floorScaled
  have hb : binadeExponent (sampleDraw 0 * (20 : Int)) = 4 :=
    binadeExponent_eq _ 4 (by norm_num) (by norm_num [sampleDraw]) (by norm_num [sampleDraw])
  constructor
  · unfold roundDouble
    rw [hb]
    have hq : sampleDraw 0 * ((20 : Int) : ℚ) / 2 ^ ((4 : Int) - 52) =
        (21392098230009855 : ℚ) / 4 := by norm_num [sampleDraw]
    have hf : Int.floor ((21392098230009855 : ℚ) / 4) = 5348024557502463 := by
      rw [Int.floor_eq_iff]; constructor <;> norm_num
    have hr : roundHalfEven ((21392098230009855 : ℚ) / 4) = 5348024557502464 := by
      unfold roundHalfEven
      simp only [hf]
      norm_num
    rw [hq, hr]
    norm_num
  · rw [Int.floor_eq_iff]; constructor <;> norm_num [sampleDraw]

theorem conditionWith_of_index (i : Int) (h0 : 0 ≤ i) (h4 : i < 4) :
    ConditionWith currentDescriptions (arrayGet conditions i)
      (tableGet icons (arrayGet conditions i))
      (tableGet currentDescriptions (arrayGet conditions i)) ∧
    ConditionWith forecastDescriptions (arrayGet conditions i)
      (tableGet icons (arrayGet conditions i))
      (tableGet forecastDescriptions (arrayGet conditions i)) := by
  interval_cases i
  all_goals
    constructor <;>
    exact ⟨_, _, _, rfl, rfl, rfl, by decide, by decide, by decide⟩

theorem showError_samePresence (message : String) (p q : Page) (h : SamePresence p q) :
    SamePresence p (showError message q) := by
  intro id
  rw [← h id]
  unfold showError
  split
  · rename_i he ht
    by_cases hid : id = TextId.errorText
    · subst hid; simp [ht]
    · simp [hid]
  · rfl

theorem setTextContent_samePresence (id : TextId) (text : String) (p q : Page)
    (h : SamePresence p q) : SamePresence p (setTextContent id text q).state := by
  intro j
  rw [← h j]
  unfold setTextContent
  cases hq : q.texts id with
  | none => rfl
  | some v =>
    by_cases hj : j = id
    · subst hj; simp [Completion.state, hq]
    · simp [Completion.state, hj]

theorem andThen_samePresence (p : Page) (c : Completion Page)
    (f : Page → Completion Page) (hc : SamePresence p c.state)
    (hf : ∀ q, SamePresence p q → SamePresence p (f q).state) :
    SamePresence p (c.andThen f).state := by
  cases c with
  | normal q => exact hf q hc
  | throws q e => exact hc

theorem writeSeven_isThrow (p : Page) (t1 t2 t3 t4 t5 t6 t7 : String) :
    ((setTextContent TextId.currentIcon t1 p).andThen fun p =>
      (setTextContent TextId.currentTemp t2 p).andThen fun p =>
      (setTextContent TextId.currentCondition t3 p).andThen fun p =>
      (setTextContent TextId.currentDate t4 p).andThen fun p =>
      (setTextContent TextId.currentHumidity t5 p).andThen fun p =>
      (setTextContent TextId.currentWind t6 p).andThen fun p =>
      setTextContent TextId.currentProbability t7 p).isThrow =
    !(currentTextIds.all fun id => (p.texts id).isSome) := by
  unfold currentTextIds
  cases h1 : p.texts TextId.currentIcon with
  | none => simp [setTextContent, Completion.andThen, Completion.isThrow, h1]
  | some v1 =>
  cases h2 : p.texts TextId.currentTemp with
  | none => simp [setTextContent, Completion.andThen, Completion.isThrow, h1, h2]
  | some v2 =>
  cases h3 : p.texts TextId.currentCondition with
  | none => simp [setTextContent, Completion.andThen, Completion.isThrow, h1, h2, h3]
  | some v3 =>
  cases h4 : p.texts TextId.currentDate with
  | none => simp [setTextContent, Completion.andThen, Completion.isThrow, h1, h2, h3, h4]
  | some v4 =>
  cases h5 : p.texts TextId.currentHumidity with
  | none =>
    simp [setTextContent, Completion.andThen, Completion.isThrow, h1, h2, h3, h4, h5]
  | some v5 =>
  cases h6 : p.texts TextId.currentWind with
  | none =>
    simp [setTextContent, Completion.andThen, Completion.isThrow, h1, h2, h3, h4, h5, h6]
  | some v6 =>
  cases h7 : p.texts TextId.currentProbability with
  | none =>
    simp [setTextContent, Completion.andThen, Completion.isThrow, h1, h2, h3, h4, h5, h6, h7]
  | some v7 =>
    simp [setTextContent, Completion.andThen, Completion.isThrow, h1, h2, h3, h4, h5, h6, h7]

theorem writeSeven_samePresence (p : Page) (t1 t2 t3 t4 t5 t6 t7 : String) :
    SamePresence p
      ((setTextContent TextId.currentIcon t1 p).andThen fun p =>
        (setTextContent TextId.currentTemp t2 p).andThen fun p =>
        (setTextContent TextId.currentCondition t3 p).andThen fun p =>
        (setTextContent TextId.currentDate t4 p).andThen fun p =>
        (setTextContent TextId.currentHumidity t5 p).andThen fun p =>
        (setTextContent TextId.currentWind t6 p).andThen fun p =>
        setTextContent TextId.currentProbability t7 p).state := by
  have h0 : SamePresence p p := fun _ => rfl
  refine andThen_samePresence p _ _ (setTextContent_samePresence _ _ p p h0) fun q1 h1 => ?_
  refine andThen_samePresence p _ _ (setTextContent_samePresence _ _ p q1 h1) fun q2 h2 => ?_
  refine andThen_samePresence p _ _ (setTextContent_samePresence _ _ p q2 h2) fun q3 h3 => ?_
  refine andThen_samePresence p _ _ (setTextContent_samePresence _ _ p q3 h3) fun q4 h4 => ?_
  refine andThen_samePresence p _ _ (setTextContent_samePresence _ _ p q4 h4) fun q5 h5 => ?_
  refine andThen_samePresence p _ _ (setTextContent_samePresence _ _ p q5 h5) fun q6 h6 => ?_
  exact setTextContent_samePresence _ _ p q6 h6

theorem all_isSome_of_samePresence (p q : Page) (h : SamePresence p q) :
    (currentTextIds.all fun id => (q.texts id).isSome) =
      (currentTextIds.all fun id => (p.texts id).isSome) := by
  unfold currentTextIds
  simp only [List.all_cons, List.all_nil]
  rw [h, h, h, h, h, h, h]

/-- The `catch` block of `loadCurrentWeather` never recovers: whenever
rendering throws, the fallback throws as well and the promise is rejected. -/
theorem loadCurrentWeather_isThrow (env : Env) (draw : Nat → ℚ) (p : Page) :
    (loadCurrentWeather env draw p).isThrow =
      (displayCurrentWeather env (generateCurrentWeather env draw) p).isThrow := by
  have hthrow : (displayCurrentWeather env (generateCurrentWeather env draw) p).isThrow =
      !(currentTextIds.all fun id => (p.texts id).isSome) := writeSeven_isThrow p _ _ _ _ _ _ _
  have hsame : SamePresence p
      (displayCurrentWeather env (generateCurrentWeather env draw) p).state :=
    writeSeven_samePresence p _ _ _ _ _ _ _
  unfold loadCurrentWeather
  simp only []
  generalize displayCurrentWeather env (generateCurrentWeather env draw) p = r
    at hthrow hsame
  cases r with
  | normal p1 => rfl
  | throws p1 error =>
    simp only [Completion.state] at hsame
    have h3 : SamePresence p (showError "Failed to load current weather data"
        { p1 with consoleErrors :=
            p1.consoleErrors ++ ["Error loading current weather: " ++ error] }) :=
      showError_samePresence _ p _ hsame
    show (displayCurrentWeatherFallback env _).isThrow = _
    unfold displayCurrentWeatherFallback
    rw [writeSeven_isThrow, all_isSome_of_samePresence p _ h3, ← hthrow]

/-- The method `loadForecast` never throws. -/
theorem loadForecast_isThrow (env : Env) (draw : Nat → ℚ) (p : Page) :
    (loadForecast env draw p).isThrow = false := by
  unfold loadForecast displayForecast generateForecast
  cases p.forecastContainer <;> rfl

/-- Where the date check does what it is meant to do: a date that is not
before today's local date is refused in every zone on or ahead of UTC, and a
date after today's local date is refused in every zone less than a day behind
UTC.  What is left over is today's date in a zone behind UTC. -/
theorem getHistoricalData_date_guard (env : Env) (fetch : Request → FetchOutcome)
    (w : World) (cityValue date : String) (y m d : Nat)
    (hcity : w.historicalCity = some cityValue) (hdate : w.historicalDate = some date)
    (hne : jsTrim cityValue ≠ "")
    (hval : validateCityInput (jsTrim cityValue) = true)
    (hparse : parseIsoDate date = some (y, m, d))
    (hzone : (0 ≤ env.tzOffsetMinutes ∧
        localTime env env.now / msPerDay ≤ daysFromCivil y m d) ∨
      (-1440 < env.tzOffsetMinutes ∧
        localTime env env.now / msPerDay < daysFromCivil y m d)) :
    RejectedWith w (getHistoricalData env fetch w) "Please select a date from the past" := by
  have hd : date ≠ "" := by
    intro h
    rw [h] at hparse
    have hnone : parseIsoDate "" = none := by decide
    rw [hnone] at hparse
    exact Option.noConfusion hparse
  have hge : dateGe (dateFromString env date) (setHoursZero env env.now) = true := by
    simp only [dateFromString, hparse, dateGe, setHoursZero, utcOfLocal, decide_eq_true_eq]
    simp only [localTime, msPerDay] at hzone ⊢
    omega
  have hrun : getHistoricalData env fetch w =
      .normal (showAlert "Please select a date from the past" "warning" w) := by
    simp [getHistoricalData, hcity, hdate, hne, hd, hval, hge]
  rw [hrun]
  exact rejectedWith_showAlert w _

theorem cityClass_eq (c : Char) :
    cityClass c = (c.isAlpha || isJsWhitespace c || c == ',' || c == '.' || c == '-') := by
  have hu : c.isUpper = (decide (0x41 ≤ c.toNat) && decide (c.toNat ≤ 0x5A)) := by
    simp [Char.isUpper, Char.toNat, UInt32.le_def, Fin.le_def]
    rfl
  have hl : c.isLower = (decide (0x61 ≤ c.toNat) && decide (c.toNat ≤ 0x7A)) := by
    simp [Char.isLower, Char.toNat, UInt32.le_def, Fin.le_def]
    rfl
  rw [Char.isAlpha, hu, hl]
  unfold cityClass
  simp only []
  generalize (decide (0x61 ≤ c.toNat) && decide (c.toNat ≤ 0x7A)) = a
  generalize (decide (0x41 ≤ c.toNat) && decide (c.toNat ≤ 0x5A)) = b
  cases a <;> cases b <;> rfl

theorem setTextContent_sameOverlay (id : TextId) (text : String) (p q : Page)
    (h : SameOverlay p q) : SameOverlay p (setTextContent id text q).state := by
  unfold setTextContent
  cases hq : q.texts id <;> exact h

theorem andThen_sameOverlay (p : Page) (c : Completion Page)
    (f : Page → Completion Page) (hc : SameOverlay p c.state)
    (hf : ∀ q, SameOverlay p q → SameOverlay p (f q).state) :
    SameOverlay p (c.andThen f).state := by
  cases c with
  | normal q => exact hf q hc
  | throws q e => exact hc

theorem writeSeven_sameOverlay (p q : Page) (h0 : SameOverlay p q)
    (t1 t2 t3 t4 t5 t6 t7 : String) :
    SameOverlay p
      ((setTextContent TextId.currentIcon t1 q).andThen fun p =>
        (setTextContent TextId.currentTemp t2 p).andThen fun p =>
        (setTextContent TextId.currentCondition t3 p).andThen fun p =>
        (setTextContent TextId.currentDate t4 p).andThen fun p =>
        (setTextContent TextId.currentHumidity t5 p).andThen fun p =>
        (setTextContent TextId.currentWind t6 p).andThen fun p =>
        setTextContent TextId.currentProbability t7 p).state := by
  refine andThen_sameOverlay p _ _ (setTextContent_sameOverlay _ _ p q h0) fun q1 h1 => ?_
  refine andThen_sameOverlay p _ _ (setTextContent_sameOverlay _ _ p q1 h1) fun q2 h2 => ?_
  refine andThen_sameOverlay p _ _ (setTextContent_sameOverlay _ _ p q2 h2) fun q3 h3 => ?_
  refine andThen_sameOverlay p _ _ (setTextContent_sameOverlay _ _ p q3 h3) fun q4 h4 => ?_
  refine andThen_sameOverlay p _ _ (setTextContent_sameOverlay _ _ p q4 h4) fun q5 h5 => ?_
  refine andThen_sameOverlay p _ _ (setTextContent_sameOverlay _ _ p q5 h5) fun q6 h6 => ?_
  exact setTextContent_sameOverlay _ _ p q6 h6

theorem showError_sameOverlay (message : String) (p q : Page) (h : SameOverlay p q) :
    SameOverlay p (showError message q) := by
  unfold showError
  split <;> exact h

theorem loadCurrentWeather_sameOverlay (env : Env) (draw : Nat → ℚ) (p : Page) :
    SameOverlay p (loadCurrentWeather env draw p).state := by
  have hd : SameOverlay p (displayCurrentWeather env (generateCurrentWeather env draw) p).state :=
    writeSeven_sameOverlay p p rfl _ _ _ _ _ _ _
  unfold loadCurrentWeather
  simp only []
  generalize displayCurrentWeather env (generateCurrentWeather env draw) p = r at hd
  cases r with
  | normal p1 => exact hd
  | throws p1 error =>
    have h3 : SameOverlay p (showError "Failed to load current weather data"
        { p1 with consoleErrors :=
            p1.consoleErrors ++ ["Error loading current weather: " ++ error] }) :=
      showError_sameOverlay _ p _ hd
    exact writeSeven_sameOverlay p _ h3 _ _ _ _ _ _ _

theorem loadForecast_sameOverlay (env : Env) (draw : Nat → ℚ) (p : Page) :
    SameOverlay p (loadForecast env draw p).state := by
  unfold loadForecast displayForecast generateForecast
  cases p.forecastContainer <;> rfl

theorem loadForecast_normal (env : Env) (draw : Nat → ℚ) (p : Page) :
    ∃ q, loadForecast env draw p = .normal q := by
  unfold loadForecast displayForecast generateForecast
  cases p.forecastContainer <;> exact ⟨_, rfl⟩

theorem foldl_runTimer_overlay (order : List TimerAction) (q : Page) :
    (order.foldl (fun q action => runTimer action q) q).loadingOverlay =
      if TimerAction.hideLoading ∈ order then q.loadingOverlay.map (fun _ => false)
      else q.loadingOverlay := by
  induction order generalizing q with
  | nil => simp
  | cons a rest ih =>
    rw [List.foldl_cons, ih]
    cases a with
    | hideError =>
      have : (runTimer TimerAction.hideError q).loadingOverlay = q.loadingOverlay := by
        unfold runTimer hideError
        cases q.errorMessage <;> rfl
      simp [this]
    | hideLoading =>
      have : (runTimer TimerAction.hideLoading q).loadingOverlay =
          q.loadingOverlay.map (fun _ => false) := by
        unfold runTimer hideLoading
        cases h : q.loadingOverlay <;> simp [h]
      simp only [this, List.mem_cons, true_or, if_true]
      cases q.loadingOverlay <;> simp

theorem refreshAll_settled (env : Env) (draw : Nat → ℚ) (p : Page) :
    ((refreshAll env draw p).loadingOverlay = p.loadingOverlay.map (fun _ => true) ∧
      (1000, TimerAction.hideLoading) ∈ (refreshAll env draw p).timers) ∨
    (refreshAll env draw p).loadingOverlay = p.loadingOverlay.map (fun _ => false) := by
  have h0 : (showLoading p).loadingOverlay = p.loadingOverlay.map (fun _ => true) := by
    unfold showLoading
    cases h : p.loadingOverlay <;> simp [h]
  have h1 := loadCurrentWeather_sameOverlay env draw (showLoading p)
  have h2 := loadForecast_sameOverlay env (fun k => draw (k + 5))
    (loadCurrentWeather env draw (showLoading p)).state
  obtain ⟨q2, hq2⟩ := loadForecast_normal env (fun k => draw (k + 5))
    (loadCurrentWeather env draw (showLoading p)).state
  have hcatch : ∀ (error : String) (q : Page),
      q.loadingOverlay = p.loadingOverlay.map (fun _ => true) →
      (refreshAllCatch error q).loadingOverlay = p.loadingOverlay.map (fun _ => false) := by
    intro error q hq
    unfold refreshAllCatch
    have hs := showError_sameOverlay "Failed to refresh weather data"
      (hideLoading { q with consoleErrors := q.consoleErrors ++ ["Error refreshing data: " ++ error] })
      _ rfl
    rw [hs]
    unfold hideLoading
    simp only []
    rw [hq]
    cases p.loadingOverlay <;> rfl
  unfold SameOverlay at h1 h2
  rw [hq2] at h2
  simp only [Completion.state] at h2
  unfold refreshAll refreshAllRun
  simp only []
  rw [hq2]
  cases hc : loadCurrentWeather env draw (showLoading p) with
  | normal p1 =>
    rw [hc] at h1 h2
    simp only [Completion.state] at h1 h2
    left
    simp only []
    exact ⟨by rw [h2, h1, h0], by simp⟩
  | throws p1 error =>
    rw [hc] at h1 h2
    simp only [Completion.state] at h1 h2
    right
    exact hcatch error q2 (by rw [h2, h1, h0])

theorem char_toNat_lt (c : Char) : c.toNat < 0x110000 := by
  have h := c.valid
  simp only [UInt32.isValidChar, Nat.isValidChar] at h
  have : c.toNat = c.val.toNat := rfl
  omega

theorem hexValue_hexDigit (n : Nat) (h : n < 16) : hexValue (hexDigit n) = some n := by
  interval_cases n <;> decide

theorem hexDigit_ne (n : Nat) (h : n < 16) :
    hexDigit n ≠ '&' ∧ hexDigit n ≠ '=' ∧ hexDigit n ≠ '+' := by
  interval_cases n <;> decide

theorem utf8Octets_lt (n : Nat) (h : n < 0x110000) : ∀ b ∈ utf8Octets n, b < 256 := by
  intro b hb
  unfold utf8Octets at hb
  split_ifs at hb <;> simp at hb <;> omega

theorem percentDecodeFrom_percent (rest : List Char) :
    percentDecodeFrom 0 ('%' :: rest) =
      match hexPair rest with
      | some octet => octet :: percentDecodeFrom 2 rest
      | none => 0x25 :: percentDecodeFrom 0 rest := by
  rw [percentDecodeFrom]
  simp

theorem percentDecodeFrom_other (c : Char) (hc : c ≠ '%') (rest : List Char) :
    percentDecodeFrom 0 (c :: rest) = utf8Octets c.toNat ++ percentDecodeFrom 0 rest := by
  rw [percentDecodeFrom]
  simp [hc]

theorem percentDecodeFrom_percentOctet (b : Nat) (h : b < 256) (rest : List Char) :
    percentDecodeFrom 0 (percentOctet b ++ rest) = b :: percentDecodeFrom 0 rest := by
  have h1 := hexValue_hexDigit (b / 16) (by omega)
  have h2 := hexValue_hexDigit (b % 16) (by omega)
  have hp : hexPair (hexDigit (b / 16) :: hexDigit (b % 16) :: rest) = some b := by
    simp only [hexPair, h1, h2]
    congr 1
    omega
  show percentDecodeFrom 0 ('%' :: hexDigit (b / 16) :: hexDigit (b % 16) :: rest) = _
  rw [percentDecodeFrom_percent, hp]
  rfl

theorem percentDecodeFrom_octets (bs : List Nat) (h : ∀ b ∈ bs, b < 256) (rest : List Char) :
    percentDecodeFrom 0 (bs.flatMap percentOctet ++ rest) = bs ++ percentDecodeFrom 0 rest := by
  induction bs with
  | nil => rfl
  | cons b bs ih =>
    rw [List.flatMap_cons, List.append_assoc,
      percentDecodeFrom_percentOctet b (h b (List.mem_cons_self _ _)),
      ih fun x hx => h x (List.mem_cons_of_mem _ hx)]
    rfl

theorem encodeURIComponent_data (s : String) :
    (encodeURIComponent s).data = s.data.flatMap encodeChar := rfl

theorem unreserved_ne (c : Char) (h : isUriUnreserved c = true) :
    c ≠ '%' ∧ c ≠ '&' ∧ c ≠ '=' ∧ c ≠ '+' := by
  refine ⟨?_, ?_, ?_, ?_⟩ <;> (intro hc; subst hc; exact absurd h (by decide))

theorem percentDecodeFrom_encodeChar (c : Char) (rest : List Char) :
    percentDecodeFrom 0 (encodeChar c ++ rest) =
      utf8Octets c.toNat ++ percentDecodeFrom 0 rest := by
  unfold encodeChar
  by_cases h : isUriUnreserved c = true
  · rw [if_pos h]
    exact percentDecodeFrom_other c (unreserved_ne c h).1 rest
  · rw [if_neg h]
    exact percentDecodeFrom_octets _ (utf8Octets_lt _ (char_toNat_lt c)) rest

theorem percentDecode_encode (cs : List Char) :
    percentDecode (cs.flatMap encodeChar) = cs.flatMap fun c => utf8Octets c.toNat := by
  unfold percentDecode
  induction cs with
  | nil => rfl
  | cons c cs ih =>
    rw [List.flatMap_cons, percentDecodeFrom_encodeChar, ih, List.flatMap_cons]

theorem utf8Decode_octets (c : Char) (rest : List Nat) :
    utf8Decode (utf8Octets c.toNat ++ rest) 0 0 = (utf8Decode rest 0 0).map (c :: ·) := by
  have hlt := char_toNat_lt c
  have hc : Char.ofNat c.toNat = c := Char.ofNat_toNat c
  unfold utf8Octets
  split_ifs with h1 h2 h3
  · simp only [List.cons_append, List.nil_append, utf8Decode, if_pos h1, hc]
    rfl
  · have e1 : ¬ (0xC0 + c.toNat / 64 < 0x80) := by omega
    have e2 : 0xC0 ≤ 0xC0 + c.toNat / 64 ∧ 0xC0 + c.toNat / 64 < 0xE0 := by omega
    have e3 : 0x80 ≤ 0x80 + c.toNat % 64 ∧ 0x80 + c.toNat % 64 < 0xC0 := by omega
    have e4 : (0xC0 + c.toNat / 64 - 0xC0) * 64 + (0x80 + c.toNat % 64 - 0x80) = c.toNat := by
      omega
    simp only [List.cons_append, List.nil_append, utf8Decode, if_neg e1, if_pos e2, if_pos e3,
      if_true, e4, hc]
    rfl
  · have e1 : ¬ (0xE0 + c.toNat / 4096 < 0x80) := by omega
    have e2 : ¬ (0xC0 ≤ 0xE0 + c.toNat / 4096 ∧ 0xE0 + c.toNat / 4096 < 0xE0) := by omega
    have e3 : 0xE0 ≤ 0xE0 + c.toNat / 4096 ∧ 0xE0 + c.toNat / 4096 < 0xF0 := by omega
    have e4 : 0x80 ≤ 0x80 + c.toNat / 64 % 64 ∧ 0x80 + c.toNat / 64 % 64 < 0xC0 := by omega
    have e5 : 0x80 ≤ 0x80 + c.toNat % 64 ∧ 0x80 + c.toNat % 64 < 0xC0 := by omega
    have e6 : ((0xE0 + c.toNat / 4096 - 0xE0) * 64 + (0x80 + c.toNat / 64 % 64 - 0x80)) * 64 +
        (0x80 + c.toNat % 64 - 0x80) = c.toNat := by omega
    simp only [List.cons_append, List.nil_append, utf8Decode, if_neg e1, if_neg e2, if_pos e3,
      if_pos e4, if_pos e5, if_true, e6, hc, Nat.succ_ne_zero, if_false]
    rfl
  · have e1 : ¬ (0xF0 + c.toNat / 262144 < 0x80) := by omega
    have e2 : ¬ (0xC0 ≤ 0xF0 + c.toNat / 262144 ∧ 0xF0 + c.toNat / 262144 < 0xE0) := by omega
    have e3 : ¬ (0xE0 ≤ 0xF0 + c.toNat / 262144 ∧ 0xF0 + c.toNat / 262144 < 0xF0) := by omega
    have e4 : 0xF0 ≤ 0xF0 + c.toNat / 262144 ∧ 0xF0 + c.toNat / 262144 < 0xF8 := by omega
    have e5 : 0x80 ≤ 0x80 + c.toNat / 4096 % 64 ∧ 0x80 + c.toNat / 4096 % 64 < 0xC0 := by
      omega
    have e6 : 0x80 ≤ 0x80 + c.toNat / 64 % 64 ∧ 0x80 + c.toNat / 64 % 64 < 0xC0 := by omega
    have e7 : 0x80 ≤ 0x80 + c.toNat % 64 ∧ 0x80 + c.toNat % 64 < 0xC0 := by omega
    have e8 : (((0xF0 + c.toNat / 262144 - 0xF0) * 64 + (0x80 + c.toNat / 4096 % 64 - 0x80)) *
        64 + (0x80 + c.toNat / 64 % 64 - 0x80)) * 64 + (0x80 + c.toNat % 64 - 0x80) =
        c.toNat := by omega
    simp only [List.cons_append, List.nil_append, utf8Decode, if_neg e1, if_neg e2, if_neg e3,
      if_pos e4, if_pos e5, if_pos e6, if_pos e7, if_true, e8, hc, Nat.succ_ne_zero, if_false]
    rfl

theorem utf8Decode_flatMap (cs : List Char) :
    utf8Decode (cs.flatMap fun c => utf8Octets c.toNat) 0 0 = some cs := by
  induction cs with
  | nil => rfl
  | cons c cs ih =>
    rw [List.flatMap_cons, utf8Decode_octets, ih]
    rfl

theorem encodeChar_safe (c x : Char) (hx : x ∈ encodeChar c) :
    x ≠ '&' ∧ x ≠ '=' ∧ x ≠ '+' := by
  unfold encodeChar at hx
  by_cases h : isUriUnreserved c = true
  · rw [if_pos h] at hx
    have hxc : x = c := by simpa using hx
    rw [hxc]
    exact (unreserved_ne c h).2
  · rw [if_neg h] at hx
    obtain ⟨b, hb, hxb⟩ := List.mem_flatMap.mp hx
    have hb256 := utf8Octets_lt _ (char_toNat_lt c) b hb
    simp only [percentOctet, List.mem_cons, List.mem_singleton, List.not_mem_nil,
      or_false] at hxb
    rcases hxb with rfl | rfl | rfl
    · decide
    · exact hexDigit_ne _ (by omega)
    · exact hexDigit_ne _ (by omega)

theorem encode_safe (cs : List Char) (x : Char) (hx : x ∈ cs.flatMap encodeChar) :
    x ≠ '&' ∧ x ≠ '=' ∧ x ≠ '+' := by
  obtain ⟨c, _, hxc⟩ := List.mem_flatMap.mp hx
  exact encodeChar_safe c x hxc

theorem formDecodeComponent_encode (cs : List Char) :
    formDecodeComponent (cs.flatMap encodeChar) = some (String.mk cs) := by
  have hmap : (cs.flatMap encodeChar).map (fun c => if c = '+' then ' ' else c) =
      cs.flatMap encodeChar := by
    conv_rhs => rw [← List.map_id (cs.flatMap encodeChar)]
    apply List.map_congr_left
    intro x hx
    simp [(encode_safe cs x hx).2.2]
  unfold formDecodeComponent
  rw [hmap, percentDecode_encode, utf8Decode_flatMap]
  rfl

theorem splitOnChar_append (sep : Char) (a b : List Char) (h : sep ∉ a) :
    splitOnChar sep (a ++ sep :: b) = a :: splitOnChar sep b := by
  induction a with
  | nil => simp [splitOnChar]
  | cons c a ih =>
    have hc : c ≠ sep := fun e => h (e ▸ List.mem_cons_self _ _)
    have ha : sep ∉ a := fun e => h (List.mem_cons_of_mem _ e)
    rw [List.cons_append, splitOnChar, if_neg hc, ih ha]

theorem splitOnChar_self (sep : Char) (a : List Char) (h : sep ∉ a) :
    splitOnChar sep a = [a] := by
  induction a with
  | nil => rfl
  | cons c a ih =>
    have hc : c ≠ sep := fun e => h (e ▸ List.mem_cons_self _ _)
    have ha : sep ∉ a := fun e => h (List.mem_cons_of_mem _ e)
    rw [splitOnChar, if_neg hc, ih ha]

theorem breakAtChar_append (sep : Char) (a b : List Char) (h : sep ∉ a) :
    breakAtChar sep (a ++ sep :: b) = (a, b) := by
  induction a with
  | nil => simp [breakAtChar]
  | cons c a ih =>
    have hc : c ≠ sep := fun e => h (e ▸ List.mem_cons_self _ _)
    have ha : sep ∉ a := fun e => h (List.mem_cons_of_mem _ e)
    rw [List.cons_append, breakAtChar, if_neg hc, ih ha]

theorem formDecode_body (city date : String) :
    formDecode ("city=" ++ encodeURIComponent city ++ "&date=" ++ encodeURIComponent date) =
      some [("city", city), ("date", date)] := by
  have hdata : ("city=" ++ encodeURIComponent city ++ "&date=" ++
      encodeURIComponent date).data =
      ("city".data ++ '=' :: city.data.flatMap encodeChar) ++
        '&' :: ("date".data ++ '=' :: date.data.flatMap encodeChar) := by
    simp only [String.data_append, encodeURIComponent_data, List.append_assoc]
    rfl
  have h1 : '&' ∉ "city".data ++ '=' :: city.data.flatMap encodeChar := by
    intro hm
    rcases List.mem_append.mp hm with hm | hm
    · exact absurd hm (by decide)
    · rcases List.mem_cons.mp hm with hm | hm
      · exact absurd hm (by decide)
      · exact (encode_safe _ _ hm).1 rfl
  have h2 : '&' ∉ "date".data ++ '=' :: date.data.flatMap encodeChar := by
    intro hm
    rcases List.mem_append.mp hm with hm | hm
    · exact absurd hm (by decide)
    · rcases List.mem_cons.mp hm with hm | hm
      · exact absurd hm (by decide)
      · exact (encode_safe _ _ hm).1 rfl
  have hb1 := breakAtChar_append '=' "city".data (city.data.flatMap encodeChar) (by decide)
  have hb2 := breakAtChar_append '=' "date".data (date.data.flatMap encodeChar) (by decide)
  have hn1 : formDecodeComponent "city".data = some "city" := by decide
  have hn2 : formDecodeComponent "date".data = some "date" := by decide
  unfold formDecode
  rw [hdata, splitOnChar_append '&' _ _ h1, splitOnChar_self '&' _ h2]
  simp only [List.filter, List.map, hb1, hb2, hn1, hn2, formDecodeComponent_encode, collectSome,
    Option.map]

theorem csvRows_plain (f : List Char) (hf : ∀ c ∈ f, c ≠ '"' ∧ c ≠ ',' ∧ c ≠ '\n')
    (rest acc : List Char) (row : List String) :
    csvRows (f ++ rest) false acc row = csvRows rest false (f.reverse ++ acc) row := by
  induction f generalizing acc with
  | nil => rfl
  | cons c f ih =>
    obtain ⟨h1, h2, h3⟩ := hf c (List.mem_cons_self _ _)
    rw [List.cons_append, csvRows, if_neg h1, if_neg (fun h => h2 h.1), if_neg (fun h => h3 h.1),
      ih (fun x hx => hf x (List.mem_cons_of_mem _ hx))]
    simp

theorem csvRows_quoted (f : List Char) (hf : ∀ c ∈ f, c ≠ '"')
    (rest acc : List Char) (row : List String) :
    csvRows (f ++ rest) true acc row = csvRows rest true (f.reverse ++ acc) row := by
  induction f generalizing acc with
  | nil => rfl
  | cons c f ih =>
    have h1 := hf c (List.mem_cons_self _ _)
    rw [List.cons_append, csvRows, if_neg h1, if_neg (fun h => Bool.noConfusion h.2),
      if_neg (fun h => Bool.noConfusion h.2),
      ih (fun x hx => hf x (List.mem_cons_of_mem _ hx))]
    simp

theorem csvRows_field_comma (f : String) (hf : PlainField f) (rest : List Char)
    (row : List String) :
    csvRows (f.data ++ ',' :: rest) false [] row = csvRows rest false [] (f :: row) := by
  rw [csvRows_plain f.data hf, csvRows, if_neg (by decide), if_pos ⟨rfl, rfl⟩]
  simp

theorem csvRows_field_newline (f : String) (hf : PlainField f) (rest : List Char)
    (row : List String) :
    csvRows (f.data ++ '\n' :: rest) false [] row =
      (f :: row).reverse :: csvRows rest false [] [] := by
  rw [csvRows_plain f.data hf, csvRows, if_neg (by decide), if_neg (by decide),
    if_pos ⟨rfl, rfl⟩]
  simp

theorem csvRows_quoted_last (f : String) (hf : ∀ c ∈ f.data, c ≠ '"') (row : List String) :
    csvRows ('"' :: (f.data ++ ['"'])) false [] row = [(f :: row).reverse] := by
  rw [csvRows, if_pos rfl, Bool.not_false, csvRows_quoted f.data hf, csvRows, if_pos rfl]
  simp [csvRows]

/-- Where the CSV is sound: when the city, the date and the four numbers hold
no comma, double quote or line feed, and the description no double quote, the
text reads back as the header row and one data row of exactly the seven
values written. -/
theorem readCsv_csvContent (city date : String) (data : JsObject)
    (hcity : PlainField city) (hdate : PlainField date)
    (ht : PlainField (data.get "temperature").toStr)
    (hh : PlainField (data.get "humidity").toStr)
    (hp : PlainField (data.get "pressure").toStr)
    (hw : PlainField (data.get "wind_speed").toStr)
    (hdesc : ∀ c ∈ (data.get "description").toStr.data, c ≠ '"') :
    readCsv (csvContent city date data) =
      [["City", "Date", "Temperature (°C)", "Humidity (%)", "Pressure (hPa)",
        "Wind Speed (m/s)", "Description"],
       [city, date, (data.get "temperature").toStr, (data.get "humidity").toStr,
        (data.get "pressure").toStr, (data.get "wind_speed").toStr,
        (data.get "description").toStr]] := by
  have hdata : (csvContent city date data).data =
      ("City".data ++ ',' ::
      ("Date".data ++ ',' ::
      ("Temperature (°C)".data ++ ',' ::
      ("Humidity (%)".data ++ ',' ::
      ("Pressure (hPa)".data ++ ',' ::
      ("Wind Speed (m/s)".data ++ ',' ::
      ("Description".data ++ '\n' ::
      (city.data ++ ',' ::
      (date.data ++ ',' ::
      ((data.get "temperature").toStr.data ++ ',' ::
      ((data.get "humidity").toStr.data ++ ',' ::
      ((data.get "pressure").toStr.data ++ ',' ::
      ((data.get "wind_speed").toStr.data ++ ',' ::
      ('"' :: ((data.get "description").toStr.data ++ ['"']))))))))))))))) := by
    simp only [csvContent, csvHeader, String.data_join, String.data_append, List.map_cons,
      List.map_nil, List.flatten_cons, List.flatten_nil, List.append_assoc, List.append_nil]
    rfl
  unfold readCsv
  rw [hdata,
    csvRows_field_comma "City" (by unfold PlainField; decide), csvRows_field_comma "Date" (by unfold PlainField; decide),
    csvRows_field_comma "Temperature (°C)" (by unfold PlainField; decide),
    csvRows_field_comma "Humidity (%)" (by unfold PlainField; decide),
    csvRows_field_comma "Pressure (hPa)" (by unfold PlainField; decide),
    csvRows_field_comma "Wind Speed (m/s)" (by unfold PlainField; decide),
    csvRows_field_newline "Description" (by unfold PlainField; decide),
    csvRows_field_comma city hcity, csvRows_field_comma date hdate,
    csvRows_field_comma _ ht, csvRows_field_comma _ hh, csvRows_field_comma _ hp,
    csvRows_field_comma _ hw, csvRows_quoted_last _ hdesc]
  rfl

theorem cityClass_codePoint (c : Char) (h : cityClass c = true) :
    c.toNat ∈ cityCodePoints := by
  have hcomma : c = ',' → c.toNat = 0x2C := fun e => e ▸ rfl
  have hdot : c = '.' → c.toNat = 0x2E := fun e => e ▸ rfl
  have hhyphen : c = '-' → c.toNat = 0x2D := fun e => e ▸ rfl
  simp only [cityClass, isJsWhitespace, Bool.or_eq_true, Bool.and_eq_true, decide_eq_true_eq,
    beq_iff_eq] at h
  have hn : (0x61 ≤ c.toNat ∧ c.toNat ≤ 0x7A) ∨ (0x41 ≤ c.toNat ∧ c.toNat ≤ 0x5A) ∨
      c.toNat = 0x9 ∨ c.toNat = 0xA ∨ c.toNat = 0xB ∨ c.toNat = 0xC ∨ c.toNat = 0xD ∨
      c.toNat = 0x20 ∨ c.toNat = 0xA0 ∨ c.toNat = 0x1680 ∨
      (0x2000 ≤ c.toNat ∧ c.toNat ≤ 0x200A) ∨ c.toNat = 0x2028 ∨ c.toNat = 0x2029 ∨
      c.toNat = 0x202F ∨ c.toNat = 0x205F ∨ c.toNat = 0x3000 ∨ c.toNat = 0xFEFF ∨
      c.toNat = 0x2C ∨ c.toNat = 0x2E ∨ c.toNat = 0x2D := by
    rcases h with ((h | h) | h) | h
    · omega
    · exact Or.inr (Or.inr (by have := hcomma h; omega))
    · exact Or.inr (Or.inr (by have := hdot h; omega))
    · exact Or.inr (Or.inr (by have := hhyphen h; omega))
  generalize c.toNat = n at hn
  simp only [cityCodePoints, List.mem_append, List.mem_map, List.mem_range, List.mem_cons,
    List.mem_singleton, List.not_mem_nil, or_false]
  rcases hn with h | h | h
  · exact Or.inl (Or.inl (Or.inl (Or.inl ⟨n - 0x61, by omega, by omega⟩)))
  · exact Or.inl (Or.inl (Or.inl (Or.inr ⟨n - 0x41, by omega, by omega⟩)))
  · by_cases h2 : 0x2000 ≤ n ∧ n ≤ 0x200A
    · exact Or.inl (Or.inr ⟨n - 0x2000, by omega, by omega⟩)
    · by_cases h3 : n ≤ 0x1680 ∧ n ≠ 0x2C ∧ n ≠ 0x2E ∧ n ≠ 0x2D
      · refine Or.inl (Or.inl (Or.inr ?_))
        by_contra hcon
        simp only [not_or] at hcon
        omega
      · refine Or.inr ?_
        by_contra hcon
        simp only [not_or] at hcon
        omega

theorem encodeChar_codePoint :
    ∀ v ∈ cityCodePoints,
      encodeChar (Char.ofNat v) = (percentEncodedCityChar (Char.ofNat v)).data := by
  decide

theorem encodeChar_cityClass (c : Char) (h : cityClass c = true) :
    encodeChar c = (percentEncodedCityChar c).data := by
  have := encodeChar_codePoint c.toNat (cityClass_codePoint c h)
  rwa [Char.ofNat_toNat] at this

theorem encodeURIComponent_city (city : String) (h : validateCityInput city = true) :
    encodeURIComponent city = String.join (city.data.map percentEncodedCityChar) := by
  rw [validateCityInput_eq] at h
  have hall : ∀ c ∈ city.data, cityClass c = true := by
    have := (Bool.and_eq_true _ _).mp h
    exact List.all_eq_true.mp this.2
  apply String.ext
  rw [encodeURIComponent_data, String.data_join, List.map_map]
  generalize city.data = cs at hall
  induction cs with
  | nil => rfl
  | cons c cs ih =>
    rw [List.flatMap_cons, List.map_cons, List.flatten_cons,
      encodeChar_cityClass c (hall c (List.mem_cons_self _ _)),
      ih fun x hx => hall x (List.mem_cons_of_mem _ hx)]
    rfl

theorem encodeChar_of_digit (c : Char) (v : Nat) (h : digitValue c = some v) :
    encodeChar c = [c] := by
  unfold digitValue at h
  split at h
  · rename_i hr
    simp only [Bool.and_eq_true, decide_eq_true_eq] at hr
    have hu : isUriUnreserved c = true := by
      simp only [isUriUnreserved, Bool.or_eq_true, Bool.and_eq_true, decide_eq_true_eq,
        beq_iff_eq]
      omega
    unfold encodeChar
    rw [if_pos hu]
  · exact Option.noConfusion h

theorem digitsValue_two (a b : Char) (v : Nat) (h : digitsValue [a, b] = some v) :
    (∃ x, digitValue a = some x) ∧ ∃ y, digitValue b = some y := by
  cases ha : digitValue a with
  | none => simp [digitsValue, List.foldl, ha] at h
  | some x =>
    cases hb : digitValue b with
    | none => simp [digitsValue, List.foldl, ha, hb] at h
    | some y => exact ⟨⟨x, rfl⟩, ⟨y, rfl⟩⟩

theorem digitsValue_four (a b c d : Char) (v : Nat)
    (h : digitsValue [a, b, c, d] = some v) :
    (∃ x, digitValue a = some x) ∧ (∃ x, digitValue b = some x) ∧
    (∃ x, digitValue c = some x) ∧ ∃ x, digitValue d = some x := by
  cases ha : digitValue a with
  | none => simp [digitsValue, List.foldl, ha] at h
  | some x =>
    cases hb : digitValue b with
    | none => simp [digitsValue, List.foldl, ha, hb] at h
    | some y =>
      cases hc : digitValue c with
      | none => simp [digitsValue, List.foldl, ha, hb, hc] at h
      | some z =>
        cases hd : digitValue d with
        | none => simp [digitsValue, List.foldl, ha, hb, hc, hd] at h
        | some u => exact ⟨⟨x, rfl⟩, ⟨y, rfl⟩, ⟨z, rfl⟩, ⟨u, rfl⟩⟩

theorem encodeURIComponent_date (date : String) (y m d : Nat)
    (h : parseIsoDate date = some (y, m, d)) : encodeURIComponent date = date := by
  unfold parseIsoDate at h
  split at h
  · rename_i y1 y2 y3 y4 m1 m2 d1 d2 hdata
    cases hy : digitsValue [y1, y2, y3, y4] with
    | none => simp [hy] at h
    | some vy =>
      cases hm : digitsValue [m1, m2] with
      | none => simp [hy, hm] at h
      | some vm =>
        cases hd : digitsValue [d1, d2] with
        | none => simp [hy, hm, hd] at h
        | some vd =>
          obtain ⟨⟨_, e1⟩, ⟨_, e2⟩, ⟨_, e3⟩, ⟨_, e4⟩⟩ := digitsValue_four _ _ _ _ _ hy
          obtain ⟨⟨_, e5⟩, ⟨_, e6⟩⟩ := digitsValue_two _ _ _ hm
          obtain ⟨⟨_, e7⟩, ⟨_, e8⟩⟩ := digitsValue_two _ _ _ hd
          have hdash : encodeChar '-' = ['-'] := by decide
          apply String.ext
          rw [encodeURIComponent_data, hdata]
          simp only [List.flatMap_cons, List.flatMap_nil, encodeChar_of_digit _ _ e1,
            encodeChar_of_digit _ _ e2, encodeChar_of_digit _ _ e3, encodeChar_of_digit _ _ e4,
            encodeChar_of_digit _ _ e5, encodeChar_of_digit _ _ e6, encodeChar_of_digit _ _ e7,
            encodeChar_of_digit _ _ e8, hdash, List.cons_append, List.nil_append, List.append_nil]
  · exact Option.noConfusion h

/-! ## Theorems -/

/-- C1: when the trimmed city has a character outside `[A-Za-z\s,.-]`, then
for every date value `getHistoricalData` ends with a single warning (the one
for a missing field when the date is empty, the one for the city otherwise),
sends no request and does not write the result panel. -/
theorem getHistoricalData_rejects_bad_city (env : Env) (fetch : Request → FetchOutcome)
    (w : World) (cityValue date : String) (c : Char)
    (hcity : w.historicalCity = some cityValue) (hdate : w.historicalDate = some date)
    (hc : c ∈ (jsTrim cityValue).data) (hbad : cityClass c = false) :
    (date = "" → RejectedWith w (getHistoricalData env fetch w)
        "Please enter both city name and date") ∧
    (date ≠ "" → RejectedWith w (getHistoricalData env fetch w)
        "Please enter a valid city name") ∧
    (getHistoricalData env fetch w).state.requests = w.requests ∧
    (getHistoricalData env fetch w).state.historicalResult = w.historicalResult ∧
    ∃ message, RejectedWith w (getHistoricalData env fetch w) message := by
  have hne : jsTrim cityValue ≠ "" := ne_empty_of_mem_data _ c hc
  have hval : validateCityInput (jsTrim cityValue) = false :=
    validateCityInput_false_of_mem _ c hc hbad
  by_cases hd : date = ""
  · have hrun : getHistoricalData env fetch w =
        .normal (showAlert "Please enter both city name and date" "warning" w) := by
      simp [getHistoricalData, hcity, hdate, hd]
    have hr := rejectedWith_showAlert w "Please enter both city name and date"
    rw [← hrun] at hr
    exact ⟨fun _ => hr, fun h => absurd hd h, hr.2.2.2.1, hr.2.2.2.2, _, hr⟩
  · have hrun : getHistoricalData env fetch w =
        .normal (showAlert "Please enter a valid city name" "warning" w) := by
      simp [getHistoricalData, hcity, hdate, hd, hne, hval]
    have hr := rejectedWith_showAlert w "Please enter a valid city name"
    rw [← hrun] at hr
    exact ⟨fun h => absurd h hd, fun _ => hr, hr.2.2.2.1, hr.2.2.2.2, _, hr⟩

theorem getHistoricalData_rejects_bad_city_witness :
    '1' ∈ (jsTrim " Paris1 ").data ∧ cityClass '1' = false ∧
    RejectedWith (sampleWorld " Paris1 " "2024-06-01")
      (getHistoricalData sampleEnv noAnswer (sampleWorld " Paris1 " "2024-06-01"))
      "Please enter a valid city name" :=
  ⟨by decide, by decide,
    (getHistoricalData_rejects_bad_city sampleEnv noAnswer
      (sampleWorld " Paris1 " "2024-06-01") " Paris1 " "2024-06-01" '1' rfl rfl
      (by decide) (by decide)).2.1 (by decide)⟩

/-- C2, evaluated where it fails: in a zone five hours behind UTC, at noon of
2024-06-15, the city `London` with the date `2024-06-15` (today, so not a
date of the past) passes the date check: whatever the network answers, the
request is sent and no warning is shown. -/
theorem getHistoricalData_today_passes_west_of_utc :
    civilFromDays (localTime westEnv westEnv.now / msPerDay) = (2024, 6, 15) ∧
    parseIsoDate "2024-06-15" = some (2024, 6, 15) ∧
    validateCityInput (jsTrim "London") = true ∧
    ∀ fetch : Request → FetchOutcome,
      (getHistoricalData westEnv fetch (sampleWorld "London" "2024-06-15")).state.requests =
        [historicalRequest "London" "2024-06-15"] ∧
      (getHistoricalData westEnv fetch (sampleWorld "London" "2024-06-15")).state.shown = [] := by
  refine ⟨by decide, by decide, by decide, fun fetch => ?_⟩
  have h := getHistoricalData_dispatch westEnv fetch (sampleWorld "London" "2024-06-15")
    "London" "2024-06-15" { innerHTML := "", display := "none" } rfl rfl rfl
    (by decide) (by decide) (by decide) (by decide)
  have htrim : jsTrim "London" = "London" := by decide
  rw [htrim] at h
  exact ⟨h.2.1, h.2.2⟩

/-- C3: the checks of `getHistoricalData` run in the order emptiness, city
pattern, date, and the first one that fails decides the single warning: an
empty trimmed city or an empty date gives `Please enter both city name and
date` whatever else is wrong; otherwise a city that fails the pattern gives
`Please enter a valid city name` whatever the date; otherwise a date that
fails the comparison with today gives `Please select a date from the past`.
Each time one warning is shown, no request is sent and the panel is left
alone. -/
theorem getHistoricalData_check_order (env : Env) (fetch : Request → FetchOutcome)
    (w : World) (cityValue date : String)
    (hcity : w.historicalCity = some cityValue) (hdate : w.historicalDate = some date) :
    (jsTrim cityValue = "" ∨ date = "" →
      RejectedWith w (getHistoricalData env fetch w)
        "Please enter both city name and date") ∧
    (jsTrim cityValue ≠ "" → date ≠ "" → validateCityInput (jsTrim cityValue) = false →
      RejectedWith w (getHistoricalData env fetch w) "Please enter a valid city name") ∧
    (jsTrim cityValue ≠ "" → date ≠ "" → validateCityInput (jsTrim cityValue) = true →
      dateGe (dateFromString env date) (setHoursZero env env.now) = true →
      RejectedWith w (getHistoricalData env fetch w)
        "Please select a date from the past") := by
  refine ⟨fun h => ?_, fun hne hd hval => ?_, fun hne hd hval hge => ?_⟩
  · have hrun : getHistoricalData env fetch w =
        .normal (showAlert "Please enter both city name and date" "warning" w) := by
      simp [getHistoricalData, hcity, hdate, h]
    rw [hrun]
    exact rejectedWith_showAlert w _
  · have hrun : getHistoricalData env fetch w =
        .normal (showAlert "Please enter a valid city name" "warning" w) := by
      simp [getHistoricalData, hcity, hdate, hne, hd, hval]
    rw [hrun]
    exact rejectedWith_showAlert w _
  · have hrun : getHistoricalData env fetch w =
        .normal (showAlert "Please select a date from the past" "warning" w) := by
      simp [getHistoricalData, hcity, hdate, hne, hd, hval, hge]
    rw [hrun]
    exact rejectedWith_showAlert w _

theorem getHistoricalData_check_order_witness :
    RejectedWith (sampleWorld "   " "2999-01-01")
      (getHistoricalData sampleEnv noAnswer (sampleWorld "   " "2999-01-01"))
      "Please enter both city name and date" ∧
    RejectedWith (sampleWorld "L0ndon" "2999-01-01")
      (getHistoricalData sampleEnv noAnswer (sampleWorld "L0ndon" "2999-01-01"))
      "Please enter a valid city name" ∧
    RejectedWith (sampleWorld "London" "2999-01-01")
      (getHistoricalData sampleEnv noAnswer (sampleWorld "London" "2999-01-01"))
      "Please select a date from the past" :=
  ⟨(getHistoricalData_check_order sampleEnv noAnswer (sampleWorld "   " "2999-01-01")
      "   " "2999-01-01" rfl rfl).1 (Or.inl (by decide)),
   (getHistoricalData_check_order sampleEnv noAnswer (sampleWorld "L0ndon" "2999-01-01")
      "L0ndon" "2999-01-01" rfl rfl).2.1 (by decide) (by decide) (by decide),
   (getHistoricalData_check_order sampleEnv noAnswer (sampleWorld "London" "2999-01-01")
      "London" "2999-01-01" rfl rfl).2.2 (by decide) (by decide) (by decide) (by decide)⟩

/-- C4 as stated fails for the empty message: for the payload `{"error": ""}`
the test `if (data.error)` is false, and the panel gets the data card, not a
banner. -/
theorem getHistoricalData_empty_error_shows_card :
    JsObject.get [("error", JsValue.str "")] "error" = JsValue.str "" ∧
    (getHistoricalData sampleEnv (answers [("error", JsValue.str "")])
      (sampleWorld "London" "2023-01-01")).state.historicalResult =
      some { innerHTML := historicalCard [("error", JsValue.str "")] "London" "2023-01-01"
               "Sunday, January 1, 2023",
             display := "block" } ∧
    historicalCard [("error", JsValue.str "")] "London" "2023-01-01"
      "Sunday, January 1, 2023" ≠ errorBanner "" := by
  refine ⟨by decide, ?_, fun h => errorBanner_ne_card _ _ _ _ _ h.symm⟩
  have h := getHistoricalData_json sampleEnv (answers [("error", JsValue.str "")])
    (sampleWorld "London" "2023-01-01") "London" "2023-01-01"
    { innerHTML := "", display := "none" } [("error", JsValue.str "")] rfl rfl rfl
    (by decide) (by decide) (by decide) (by decide) rfl
  have htrim : jsTrim "London" = "London" := by decide
  have hdate : localLongDate sampleEnv (dateFromString sampleEnv "2023-01-01") =
      "Sunday, January 1, 2023" := by decide
  have htruthy : (JsObject.get [("error", JsValue.str "")] "error").truthy = false := by
    decide
  rw [htrim, hdate, htruthy] at h
  rw [h]
  rfl

/-- C4, amended: when the payload of the answer has an error field that is a
non-empty string, `getHistoricalData` ends normally with the danger banner
in the result panel; the banner is the fixed markup around exactly that
message, and it is not the markup of any data card. -/
theorem getHistoricalData_error_banner (env : Env) (fetch : Request → FetchOutcome)
    (w : World) (cityValue date : String) (panel : Panel) (data : JsObject) (s : String)
    (hcity : w.historicalCity = some cityValue) (hdate : w.historicalDate = some date)
    (hpanel : w.historicalResult = some panel)
    (hne : jsTrim cityValue ≠ "") (hd : date ≠ "")
    (hval : validateCityInput (jsTrim cityValue) = true)
    (hpast : dateGe (dateFromString env date) (setHoursZero env env.now) = false)
    (hresp : fetch (historicalRequest (jsTrim cityValue) date) = .json data)
    (herr : data.get "error" = JsValue.str s) (hs : s ≠ "") :
    getHistoricalData env fetch w = .normal { w with
      requests := w.requests ++ [historicalRequest (jsTrim cityValue) date]
      historicalResult := some { innerHTML := errorBanner s, display := "block" } } ∧
    errorBanner s =
      "\n                <div class=\"alert alert-danger\">\n                    <i class=\"fas fa-exclamation-triangle\"></i> " ++ s ++ "\n                </div>\n            " ∧
    ∀ (data1 : JsObject) (city1 date1 formattedDate1 : String),
      errorBanner s ≠ historicalCard data1 city1 date1 formattedDate1 := by
  refine ⟨?_, errorBanner_eq s, fun data1 city1 date1 f1 => errorBanner_ne_card s _ _ _ _⟩
  rw [getHistoricalData_json env fetch w cityValue date panel data hcity hdate hpanel hne hd
    hval hpast hresp, herr]
  simp [JsValue.truthy, JsValue.toStr, hs]

theorem getHistoricalData_error_banner_witness :
    (getHistoricalData sampleEnv (answers [("error", JsValue.str "city not found")])
      (sampleWorld "London" "2023-01-01")).state.historicalResult =
      some { innerHTML := errorBanner "city not found", display := "block" } :=
  congrArg (fun r => r.state.historicalResult)
    (getHistoricalData_error_banner sampleEnv (answers [("error", JsValue.str "city not found")])
      (sampleWorld "London" "2023-01-01") "London" "2023-01-01"
      { innerHTML := "", display := "none" } [("error", JsValue.str "city not found")]
      "city not found" rfl rfl rfl (by decide) (by decide) (by decide) (by decide) rfl
      (by decide) (by decide)).1

/-- C5: the CSV text of `downloadHistoricalData` is the header line, one
newline, then the line `city,date,temperature,humidity,pressure,wind_speed,
"description"`; it ends with the closing quote, so with no newline; it is the
content of the file offered for download; and for London, 2023-01-01 and the
record `10, 80, 1012, 3, clear sky` the data line is
`London,2023-01-01,10,80,1012,3,"clear sky"`. -/
theorem downloadHistoricalData_csv (city date : String) (data : JsObject) (w : World) :
    csvContent city date data =
      "City,Date,Temperature (°C),Humidity (%),Pressure (hPa),Wind Speed (m/s),Description" ++
      "\n" ++
      (city ++ "," ++ date ++ "," ++ (data.get "temperature").toStr ++ "," ++
        (data.get "humidity").toStr ++ "," ++ (data.get "pressure").toStr ++ "," ++
        (data.get "wind_speed").toStr ++ "," ++
        "\"" ++ (data.get "description").toStr ++ "\"") ∧
    (csvContent city date data).data.getLast? = some '"' ∧
    (downloadHistoricalData city date data w).downloads =
      w.downloads ++ [{ filename := "weather_" ++ city ++ "_" ++ date ++ ".csv",
                        content := csvContent city date data,
                        mimeType := "text/csv;charset=utf-8;" }] ∧
    csvContent "London" "2023-01-01"
        [("temperature", JsValue.num 10), ("humidity", JsValue.num 80),
         ("pressure", JsValue.num 1012), ("wind_speed", JsValue.num 3),
         ("description", JsValue.str "clear sky")] =
      "City,Date,Temperature (°C),Humidity (%),Pressure (hPa),Wind Speed (m/s),Description" ++
      "\n" ++ "London,2023-01-01,10,80,1012,3,\"clear sky\"" := by
  refine ⟨?_, ?_, ?_, by decide⟩
  · apply String.ext
    simp only [csvContent, csvHeader, String.data_join, String.data_append, List.map_cons,
      List.map_nil, List.flatten_cons, List.flatten_nil, List.append_assoc, List.append_nil]
    rfl
  · simp only [csvContent, String.data_join, String.data_append, List.map_cons,
      List.map_nil, List.flatten_cons, List.flatten_nil, List.append_nil]
    simp only [← List.append_assoc]
    exact List.getLast?_concat _
  · simp only [downloadHistoricalData, showAlert]
    congr 3

/-- C6: for draws that are binary64 numbers in `[0,1)`, as `Math.random()`
returns them, and every clock, `generateForecast` returns
`success = true` with exactly 7 entries; each entry has a temperature in
`[10,30)`, a probability in `[30,90)`, a condition among the four and the icon
and description that the tables give for that condition. -/
theorem generateForecast_entries (env : Env) (draw : Nat → ℚ)
    (hdraw : ∀ k, IsDouble (draw k) ∧ 0 ≤ draw k ∧ draw k < 1) :
    ∃ forecast, generateForecast env draw = { success := true, forecast := some forecast } ∧
      forecast.length = 7 ∧
      ∀ d ∈ forecast,
        10 ≤ d.temperature ∧ d.temperature < 30 ∧
        30 ≤ d.probability ∧ d.probability < 90 ∧
        ConditionWith forecastDescriptions d.condition d.icon d.description := by
  refine ⟨_, rfl, ?_, ?_⟩
  · simp [forecastLoop]
  · intro d hd
    have hmem : ∃ i, d = forecastEntry env draw env.now i := by
      simp only [forecastLoop, List.nil_append, List.cons_append] at hd
      simp at hd
      rcases hd with h | h | h | h | h | h | h <;> exact ⟨_, h⟩
    obtain ⟨i, rfl⟩ := hmem
    have ht := floorScaled_bounds (draw (5 * i + 1)) 20 4 (hdraw _).1 (hdraw _).2.1 (hdraw _).2.2
      (by norm_num) (by norm_num) (by norm_num)
    have hp := floorScaled_bounds (draw (5 * i + 4)) 60 5 (hdraw _).1 (hdraw _).2.1 (hdraw _).2.2
      (by norm_num) (by norm_num) (by norm_num)
    have hc := floorScaled_bounds (draw (5 * i)) 4 1 (hdraw _).1 (hdraw _).2.1 (hdraw _).2.2
      (by norm_num) (by norm_num) (by norm_num)
    refine ⟨?_, ?_, ?_, ?_, ?_⟩
    · simp only [forecastEntry]; omega
    · simp only [forecastEntry]; omega
    · simp only [forecastEntry]; omega
    · simp only [forecastEntry]; omega
    · exact (conditionWith_of_index _ hc.1 hc.2).2

theorem generateForecast_entries_witness :
    (∀ k, IsDouble (sampleDraw k) ∧ 0 ≤ sampleDraw k ∧ sampleDraw k < 1) ∧
    ∃ forecast, generateForecast sampleEnv sampleDraw =
        { success := true, forecast := some forecast } ∧
      forecast.length = 7 ∧
      ∀ d ∈ forecast,
        10 ≤ d.temperature ∧ d.temperature < 30 ∧
        30 ≤ d.probability ∧ d.probability < 90 ∧
        ConditionWith forecastDescriptions d.condition d.icon d.description :=
  ⟨sampleDraw_isDouble, generateForecast_entries sampleEnv sampleDraw sampleDraw_isDouble⟩

/-- C7: for draws that are binary64 numbers in `[0,1)`, as `Math.random()`
returns them, `generateCurrentWeather` returns a sample with a
condition among the four, a temperature in `[15,35)`, a humidity in `[40,80)`,
a wind speed in `[5,25)`, a probability in `[50,90)`, and the icon and
description that the tables give for its condition. -/
theorem generateCurrentWeather_sample (env : Env) (draw : Nat → ℚ)
    (hdraw : ∀ k, IsDouble (draw k) ∧ 0 ≤ draw k ∧ draw k < 1) :
    ∃ weather, generateCurrentWeather env draw =
        { success := true, current_weather := some weather } ∧
      15 ≤ weather.temperature ∧ weather.temperature < 35 ∧
      40 ≤ weather.humidity ∧ weather.humidity < 80 ∧
      5 ≤ weather.wind_speed ∧ weather.wind_speed < 25 ∧
      50 ≤ weather.probability ∧ weather.probability < 90 ∧
      ConditionWith currentDescriptions weather.condition weather.icon weather.description := by
  have ht := floorScaled_bounds (draw 1) 20 4 (hdraw _).1 (hdraw _).2.1 (hdraw _).2.2
      (by norm_num) (by norm_num) (by norm_num)
  have hh := floorScaled_bounds (draw 2) 40 5 (hdraw _).1 (hdraw _).2.1 (hdraw _).2.2
      (by norm_num) (by norm_num) (by norm_num)
  have hw := floorScaled_bounds (draw 3) 20 4 (hdraw _).1 (hdraw _).2.1 (hdraw _).2.2
      (by norm_num) (by norm_num) (by norm_num)
  have hp := floorScaled_bounds (draw 4) 40 5 (hdraw _).1 (hdraw _).2.1 (hdraw _).2.2
      (by norm_num) (by norm_num) (by norm_num)
  have hc := floorScaled_bounds (draw 0) 4 1 (hdraw _).1 (hdraw _).2.1 (hdraw _).2.2
      (by norm_num) (by norm_num) (by norm_num)
  refine ⟨_, rfl, ?_, ?_, ?_, ?_, ?_, ?_, ?_, ?_, ?_⟩
  · show 15 ≤ floorScaled (draw 1) 20 + 15; omega
  · show floorScaled (draw 1) 20 + 15 < 35; omega
  · show 40 ≤ floorScaled (draw 2) 40 + 40; omega
  · show floorScaled (draw 2) 40 + 40 < 80; omega
  · show 5 ≤ floorScaled (draw 3) 20 + 5; omega
  · show floorScaled (draw 3) 20 + 5 < 25; omega
  · show 50 ≤ floorScaled (draw 4) 40 + 50; omega
  · show floorScaled (draw 4) 40 + 50 < 90; omega
  · exact (conditionWith_of_index _ hc.1 hc.2).1

theorem generateCurrentWeather_sample_witness :
    (∀ k, IsDouble (sampleDraw k) ∧ 0 ≤ sampleDraw k ∧ sampleDraw k < 1) ∧
    ∃ weather, generateCurrentWeather sampleEnv sampleDraw =
        { success := true, current_weather := some weather } ∧
      15 ≤ weather.temperature ∧ weather.temperature < 35 ∧
      40 ≤ weather.humidity ∧ weather.humidity < 80 ∧
      5 ≤ weather.wind_speed ∧ weather.wind_speed < 25 ∧
      50 ≤ weather.probability ∧ weather.probability < 90 ∧
      ConditionWith currentDescriptions weather.condition weather.icon weather.description :=
  ⟨sampleDraw_isDouble,
   generateCurrentWeather_sample sampleEnv sampleDraw sampleDraw_isDouble⟩

/-- C8, evaluated where it fails: on a page that has every element but
`#currentTemp`, for every clock and every draws, rendering throws and so does
`loadCurrentWeather` itself: the `catch` block shows the banner, and the
fallback writes the icon and throws at the same missing element, so the
exception leaves the operation and the rest of the static dataset is never
written. -/
theorem loadCurrentWeather_throws_without_currentTemp (env : Env) (draw : Nat → ℚ) :
    (displayCurrentWeather env (generateCurrentWeather env draw)
      (pageWithout TextId.currentTemp)).isThrow = true ∧
    (loadCurrentWeather env draw (pageWithout TextId.currentTemp)).isThrow = true ∧
    (loadCurrentWeather env draw (pageWithout TextId.currentTemp)).state.errorMessage =
      some true ∧
    (loadCurrentWeather env draw (pageWithout TextId.currentTemp)).state.texts
      TextId.currentIcon = some "🌤️" ∧
    (loadCurrentWeather env draw (pageWithout TextId.currentTemp)).state.texts
      TextId.currentCondition = some "" ∧
    (loadCurrentWeather env draw (pageWithout TextId.currentTemp)).state.texts
      TextId.currentProbability = some "" :=
  ⟨rfl, rfl, rfl, rfl, rfl, rfl⟩

/-- C9: on a page without `#forecastContainer`, `displayForecast` with any
argument (also one with `success = false`, also `null`) and
`displayForecastFallback` return normally and leave the page as it was. -/
theorem displayForecast_without_container (p : Page) (data : Option ForecastData)
    (h : p.forecastContainer = none) :
    displayForecast data p = .normal p ∧ displayForecastFallback p = p := by
  constructor
  · simp [displayForecast, h]
  · simp [displayForecastFallback, h]

theorem displayForecast_without_container_witness :
    pageWithoutContainer.forecastContainer = none ∧
    displayForecast (some { success := false, forecast := none }) pageWithoutContainer =
      .normal pageWithoutContainer ∧
    displayForecastFallback pageWithoutContainer = pageWithoutContainer :=
  ⟨rfl, displayForecast_without_container pageWithoutContainer
    (some { success := false, forecast := none }) rfl⟩

/-- C10 as stated fails where the browser can share: whether the share
promise resolves or rejects, `shareHistoricalData` calls `navigator.share` and
shows no alert at all. -/
theorem shareHistoricalData_share_shows_no_notice :
    (shareHistoricalData (sharingPlatform Settled.resolved) "London" "2023-01-01"
      (sampleWorld "London" "2023-01-01")).state.shown = [] ∧
    (shareHistoricalData (sharingPlatform (Settled.rejected "AbortError")) "London"
      "2023-01-01" (sampleWorld "London" "2023-01-01")).state.shown = [] ∧
    (shareHistoricalData (sharingPlatform Settled.resolved) "London" "2023-01-01"
      (sampleWorld "London" "2023-01-01")).state.shares =
      [{ title := "Weather Data for London",
         text := "Historical weather data for London on 2023-01-01",
         url := "http://localhost:5000/" }] := by
  refine ⟨rfl, rfl, ?_⟩
  decide

/-- C10, amended: with `navigator.share` the function calls it with the
title, the text and the page address, and shows no notice (a rejection is
logged to the console); without it, and with a clipboard, the function writes
the page address to the clipboard and shows exactly one notice: `Link copied
to clipboard!` when the write succeeds, `Unable to share or copy link` when it
fails. -/
theorem shareHistoricalData_notice (platform : Platform) (city date : String) (w : World) :
    (∀ share, platform.share = some share →
      (shareHistoricalData platform city date w).isThrow = false ∧
      (shareHistoricalData platform city date w).state.shares =
        w.shares ++ [{ title := "Weather Data for " ++ city,
                       text := "Historical weather data for " ++ city ++ " on " ++ date,
                       url := w.href }] ∧
      (shareHistoricalData platform city date w).state.clipboardWrites = w.clipboardWrites ∧
      (shareHistoricalData platform city date w).state.shown = w.shown) ∧
    (platform.share = none → ∀ writeText, platform.clipboardWriteText = some writeText →
      (shareHistoricalData platform city date w).isThrow = false ∧
      (shareHistoricalData platform city date w).state.shares = w.shares ∧
      (shareHistoricalData platform city date w).state.clipboardWrites =
        w.clipboardWrites ++ [w.href] ∧
      (writeText w.href = Settled.resolved →
        (shareHistoricalData platform city date w).state.shown =
          w.shown ++ [{ message := "Link copied to clipboard!", type := "info" }]) ∧
      (∀ reason, writeText w.href = Settled.rejected reason →
        (shareHistoricalData platform city date w).state.shown =
          w.shown ++ [{ message := "Unable to share or copy link", type := "warning" }])) := by
  constructor
  · intro share hs
    have ht : String.join ["Weather Data for ", city] = "Weather Data for " ++ city := by
      apply String.ext; simp
    have hx : String.join ["Historical weather data for ", city, " on ", date] =
        "Historical weather data for " ++ city ++ " on " ++ date := by
      apply String.ext; simp
    simp only [shareHistoricalData, hs, ht, hx]
    cases share { title := "Weather Data for " ++ city,
                  text := "Historical weather data for " ++ city ++ " on " ++ date,
                  url := w.href } <;>
      simp [Completion.isThrow, Completion.state]
  · intro hs writeText hw
    simp only [shareHistoricalData, hs, hw]
    cases hr : writeText w.href <;>
      simp [Completion.isThrow, Completion.state, showAlert]

theorem shareHistoricalData_notice_witness :
    (shareHistoricalData (clipboardPlatform Settled.resolved) "London" "2023-01-01"
      (sampleWorld "London" "2023-01-01")).state.shown =
      [{ message := "Link copied to clipboard!", type := "info" }] ∧
    (shareHistoricalData (clipboardPlatform (Settled.rejected "NotAllowedError")) "London"
      "2023-01-01" (sampleWorld "London" "2023-01-01")).state.shown =
      [{ message := "Unable to share or copy link", type := "warning" }] :=
  ⟨((shareHistoricalData_notice (clipboardPlatform Settled.resolved) "London" "2023-01-01"
      (sampleWorld "London" "2023-01-01")).2 rfl _ rfl).2.2.2.1 rfl,
   ((shareHistoricalData_notice (clipboardPlatform (Settled.rejected "NotAllowedError"))
      "London" "2023-01-01" (sampleWorld "London" "2023-01-01")).2 rfl _ rfl).2.2.2.2
      "NotAllowedError" rfl⟩

/-- C16 as stated fails: `New`, a tab, `York` is accepted by
`validateCityInput`, and a tab is neither a letter nor a space, a comma, a dot
or a hyphen. -/
theorem validateCityInput_accepts_tab :
    ¬ (validateCityInput "New\tYork" = true ↔
      ("New\tYork" ≠ "" ∧ ∀ c ∈ "New\tYork".data, isPlainCityChar c = true)) := by
  decide

/-- C16, amended: `validateCityInput s` is true exactly when `s` is not empty
and each of its characters is a letter `A-Z` or `a-z`, a white-space character
of the class `\s` (space, tab, line breaks, no-break space and the other
Unicode spaces), a comma, a dot or a hyphen; for every other string it is
false. -/
theorem validateCityInput_iff (s : String) :
    (validateCityInput s = true ↔
      s ≠ "" ∧ ∀ c ∈ s.data,
        c.isAlpha = true ∨ isJsWhitespace c = true ∨ c = ',' ∨ c = '.' ∨ c = '-') ∧
    (validateCityInput s = false ↔
      ¬ (s ≠ "" ∧ ∀ c ∈ s.data,
        c.isAlpha = true ∨ isJsWhitespace c = true ∨ c = ',' ∨ c = '.' ∨ c = '-')) := by
  have key : validateCityInput s = true ↔
      s ≠ "" ∧ ∀ c ∈ s.data,
        c.isAlpha = true ∨ isJsWhitespace c = true ∨ c = ',' ∨ c = '.' ∨ c = '-' := by
    rw [validateCityInput_eq]
    have hne : s ≠ "" ↔ s.data ≠ [] := by
      constructor
      · intro h hd; exact h (String.ext hd)
      · intro h hs; exact h (by rw [hs])
    simp only [Bool.and_eq_true, Bool.not_eq_true', List.isEmpty_eq_false, List.all_eq_true,
      cityClass_eq, Bool.or_eq_true, beq_iff_eq, hne]
    constructor
    · rintro ⟨h1, h2⟩
      refine ⟨h1, fun c hc => ?_⟩
      rcases h2 c hc with (((h | h) | h) | h) | h <;> simp [h]
    · rintro ⟨h1, h2⟩
      refine ⟨h1, fun c hc => ?_⟩
      rcases h2 c hc with h | h | h | h | h <;> simp [h]
  refine ⟨key, ?_⟩
  rw [← key]
  cases validateCityInput s <;> simp

/-- C11, evaluated where it fails: on 2024-06-15, after `setDateRestrictions`
has put `min = 2019-06-15` on the date input, `getHistoricalData` with the
city `London` and the date `2000-01-01`, more than five years back, sends the
request all the same, whatever the network answers: the function checks the
date against today and never against the limit of five years. -/
theorem getHistoricalData_sends_old_date :
    (setDateRestrictions sampleEnv (sampleWorld "London" "2000-01-01")).historicalDateMin =
      "2019-06-15" ∧
    parseIsoDate "2000-01-01" = some (2000, 1, 1) ∧
    daysFromCivil 2000 1 1 < daysFromCivil 2019 6 15 ∧
    validateCityInput (jsTrim "London") = true ∧
    ∀ fetch : Request → FetchOutcome,
      (getHistoricalData sampleEnv fetch
        (setDateRestrictions sampleEnv (sampleWorld "London" "2000-01-01"))).state.requests =
        [historicalRequest "London" "2000-01-01"] := by
  refine ⟨by decide, by decide, by decide, by decide, fun fetch => ?_⟩
  have h := getHistoricalData_dispatch sampleEnv fetch
    (setDateRestrictions sampleEnv (sampleWorld "London" "2000-01-01"))
    "London" "2000-01-01" { innerHTML := "", display := "none" } rfl rfl rfl
    (by decide) (by decide) (by decide) (by decide)
  have htrim : jsTrim "London" = "London" := by decide
  rw [htrim] at h
  exact h.2.1

/-- C14: whatever the two load operations do, a call of `refreshAll` first
shows the loading overlay; its next steps are `loadCurrentWeather` and then
`loadForecast`, each run to its end (normally or with a throw), and in the
states after each of them the overlay is still shown; only the last state,
when the promise settles, can have it cleared (it is cleared there when a load
has thrown, and otherwise the timeout that hides it is pending); and once the
timeouts pending at that point have fired, in any order, the overlay is not
shown. -/
theorem refreshAll_overlay (env : Env) (draw : Nat → ℚ) (p : Page) :
    (refreshAllRun env draw p).shown.loadingOverlay =
      p.loadingOverlay.map (fun _ => true) ∧
    (refreshAllRun env draw p).current =
      loadCurrentWeather env draw (refreshAllRun env draw p).shown ∧
    (refreshAllRun env draw p).current.state.loadingOverlay =
      p.loadingOverlay.map (fun _ => true) ∧
    (refreshAllRun env draw p).forecast =
      loadForecast env (fun k => draw (k + 5)) (refreshAllRun env draw p).current.state ∧
    (refreshAllRun env draw p).forecast.state.loadingOverlay =
      p.loadingOverlay.map (fun _ => true) ∧
    (((refreshAllRun env draw p).settled.loadingOverlay =
        p.loadingOverlay.map (fun _ => true) ∧
      (1000, TimerAction.hideLoading) ∈ (refreshAllRun env draw p).settled.timers) ∨
     (refreshAllRun env draw p).settled.loadingOverlay =
        p.loadingOverlay.map (fun _ => false)) ∧
    refreshAll env draw p = (refreshAllRun env draw p).settled ∧
    ∀ order : List TimerAction,
      order.Perm ((refreshAll env draw p).timers.map Prod.snd) →
      (fireTimers order (refreshAll env draw p)).loadingOverlay =
        p.loadingOverlay.map (fun _ => false) := by
  have h0 : (showLoading p).loadingOverlay = p.loadingOverlay.map (fun _ => true) := by
    unfold showLoading
    cases h : p.loadingOverlay <;> simp [h]
  have h1 := loadCurrentWeather_sameOverlay env draw (showLoading p)
  have h2 := loadForecast_sameOverlay env (fun k => draw (k + 5))
    (loadCurrentWeather env draw (showLoading p)).state
  unfold SameOverlay at h1 h2
  refine ⟨h0, rfl, h1.trans h0, rfl, h2.trans (h1.trans h0), refreshAll_settled env draw p, rfl,
    fun order hperm => ?_⟩
  unfold fireTimers
  rw [foldl_runTimer_overlay]
  show (if TimerAction.hideLoading ∈ order then
      (refreshAll env draw p).loadingOverlay.map (fun _ => false)
    else (refreshAll env draw p).loadingOverlay) = _
  rcases refreshAll_settled env draw p with ⟨hshown, hmem⟩ | hcleared
  · have hin : TimerAction.hideLoading ∈ order :=
      hperm.mem_iff.mpr (List.mem_map.mpr ⟨_, hmem, rfl⟩)
    rw [if_pos hin, hshown]
    cases p.loadingOverlay <;> rfl
  · rw [hcleared]
    split <;> cases p.loadingOverlay <;> rfl

theorem refreshAll_overlay_witness :
    (refreshAllRun sampleEnv halfDraw fullPage).shown.loadingOverlay = some true ∧
    (refreshAllRun sampleEnv halfDraw fullPage).forecast.state.loadingOverlay = some true ∧
    (fireTimers [TimerAction.hideLoading] (refreshAll sampleEnv halfDraw fullPage)).loadingOverlay =
      some false ∧
    (refreshAllRun sampleEnv halfDraw (pageWithout TextId.currentTemp)).forecast.state.loadingOverlay =
      some true ∧
    (fireTimers [TimerAction.hideError, TimerAction.hideError]
      (refreshAll sampleEnv halfDraw (pageWithout TextId.currentTemp))).loadingOverlay =
      some false :=
  ⟨(refreshAll_overlay sampleEnv halfDraw fullPage).1,
   (refreshAll_overlay sampleEnv halfDraw fullPage).2.2.2.2.1,
   (refreshAll_overlay sampleEnv halfDraw fullPage).2.2.2.2.2.2.2 [TimerAction.hideLoading]
      (List.Perm.refl _),
   (refreshAll_overlay sampleEnv halfDraw (pageWithout TextId.currentTemp)).2.2.2.2.1,
   (refreshAll_overlay sampleEnv halfDraw (pageWithout TextId.currentTemp)).2.2.2.2.2.2.2
      [TimerAction.hideError, TimerAction.hideError] (List.Perm.refl _)⟩

/-- C15, evaluated where it fails: at 02:00 of Saturday 2024-06-15 in a zone
five and a half hours ahead of UTC, for every draws, the seven entries of
`generateForecast` carry the dates 2024-06-14 to 2024-06-20 with the labels
Saturday to Friday.  The first date is yesterday, not today, and every label
is the weekday of the day after the date it stands next to: 2024-06-14 is a
Friday. -/
theorem generateForecast_date_label_mismatch (draw : Nat → ℚ) :
    civilFromDays (localTime eastEnv eastEnv.now / msPerDay) = (2024, 6, 15) ∧
    (generateForecast eastEnv draw).forecast.map (fun l => l.map fun d => (d.date, d.day)) =
      some [("2024-06-14", "Saturday"), ("2024-06-15", "Sunday"), ("2024-06-16", "Monday"),
            ("2024-06-17", "Tuesday"), ("2024-06-18", "Wednesday"),
            ("2024-06-19", "Thursday"), ("2024-06-20", "Friday")] ∧
    weekdayName (daysFromCivil 2024 6 14) = "Friday" ∧
    weekdayName (daysFromCivil 2024 6 15) = "Saturday" := by
  refine ⟨by decide, ?_, by decide, by decide⟩
  rfl

/-- C13: on a page with its three elements, for every city that passes
validation and every date strictly before today's local date (in a zone less
than a day ahead of UTC), `getHistoricalData` sends exactly one request:
`POST` to `/historical` with content type `application/x-www-form-urlencoded`
and the body `city=`, the trimmed city percent-encoded, `&date=`, the date
percent-encoded.  The encoded city is spelled out by the table
`percentEncodedCityChar` (letters, dots and hyphens as they are, a comma as
`%2C`, a space as `%20`, every other white space by its UTF-8 octets), the
encoded date is the date itself, and form-decoding the body gives back the
trimmed city and the date. -/
theorem getHistoricalData_request (env : Env) (fetch : Request → FetchOutcome)
    (w : World) (cityValue date : String) (panel : Panel) (y m d : Nat)
    (hcity : w.historicalCity = some cityValue) (hdate : w.historicalDate = some date)
    (hpanel : w.historicalResult = some panel)
    (hval : validateCityInput (jsTrim cityValue) = true)
    (hparse : parseIsoDate date = some (y, m, d))
    (hbefore : daysFromCivil y m d < localTime env env.now / msPerDay)
    (hzone : env.tzOffsetMinutes < 1440) :
    (getHistoricalData env fetch w).state.requests =
      w.requests ++
        [{ url := "/historical", method := "POST",
           contentType := "application/x-www-form-urlencoded",
           body := "city=" ++
             String.join ((jsTrim cityValue).data.map percentEncodedCityChar) ++
             "&date=" ++ date }] ∧
    formDecode ("city=" ++ String.join ((jsTrim cityValue).data.map percentEncodedCityChar) ++
        "&date=" ++ date) =
      some [("city", jsTrim cityValue), ("date", date)] := by
  have hne : jsTrim cityValue ≠ "" := by
    intro h
    rw [h] at hval
    exact absurd hval (by decide)
  have hd : date ≠ "" := by
    intro h
    rw [h] at hparse
    have hnone : parseIsoDate "" = none := by decide
    rw [hnone] at hparse
    exact Option.noConfusion hparse
  have hpast : dateGe (dateFromString env date) (setHoursZero env env.now) = false := by
    simp only [dateFromString, hparse, dateGe, setHoursZero, utcOfLocal, decide_eq_false_iff_not]
    simp only [localTime, msPerDay] at hbefore ⊢
    omega
  have hsent := (getHistoricalData_dispatch env fetch w cityValue date panel hcity hdate hpanel
    hne hd hval hpast).2.1
  have hround := formDecode_body (jsTrim cityValue) date
  unfold historicalRequest at hsent
  rw [encodeURIComponent_city _ hval, encodeURIComponent_date date y m d hparse] at hsent hround
  exact ⟨hsent, hround⟩

theorem getHistoricalData_request_witness :
    (getHistoricalData sampleEnv noAnswer
      (sampleWorld " New York, NY " "2023-01-01")).state.requests =
      [{ url := "/historical", method := "POST",
         contentType := "application/x-www-form-urlencoded",
         body := "city=New%20York%2C%20NY&date=2023-01-01" }] ∧
    formDecode "city=New%20York%2C%20NY&date=2023-01-01" =
      some [("city", "New York, NY"), ("date", "2023-01-01")] := by
  have h := getHistoricalData_request sampleEnv noAnswer
    (sampleWorld " New York, NY " "2023-01-01") " New York, NY " "2023-01-01"
    { innerHTML := "", display := "none" } 2023 1 1 rfl rfl rfl
    (by decide) (by decide) (by decide) (by decide)
  have htrim : jsTrim " New York, NY " = "New York, NY" := by decide
  have hbody : "city=" ++ String.join ("New York, NY".data.map percentEncodedCityChar) ++
      "&date=" ++ "2023-01-01" = "city=New%20York%2C%20NY&date=2023-01-01" := by decide
  rw [htrim, hbody] at h
  exact h

/-- C12, evaluated where it fails: the city `Paris, France` passes
`validateCityInput`, and the CSV written for it, read as CSV, has a data row
of eight fields under a header of seven: the city is split at its comma and
every later value stands one column to the right. -/
theorem downloadHistoricalData_csv_comma_city :
    validateCityInput "Paris, France" = true ∧
    readCsv (csvContent "Paris, France" "2023-01-01" sampleRecord) =
      [["City", "Date", "Temperature (°C)", "Humidity (%)", "Pressure (hPa)",
        "Wind Speed (m/s)", "Description"],
       ["Paris", " France", "2023-01-01", "10", "80", "1012", "3", "clear sky"]] := by
  constructor
  · decide
  · decide

end WeatherForecast
